import Mathlib

/-!
Shallow embedding of the simulation core of the CitySimulator repository
(client/src/lib/gameEngine), together with theorems checking the
natural-language specification against it.

Conventions used throughout:

* JavaScript numbers are modelled as exact rationals (`ℚ`); grid
  coordinates and array indices as integers (`ℤ`) or naturals.
* `Math.random()` draws are modelled by an explicit stream of rationals
  (`Nat → ℚ`, values in `[0,1)`) threaded through the code that draws
  them, in exactly the order the source draws them; "happens with
  probability p" is rendered as "happens iff the corresponding uniform
  draw is < p".
* `Math.sqrt` has no exact rational counterpart.  Wherever the source
  only *compares* a Euclidean distance against a bound
  (`calculateDistance(..) <= r`), the embedding compares squared
  distances (`distSq <= r^2`), which is exactly equivalent for
  non-negative reals.  Wherever the source uses the distance *value*
  (e.g. `1 - distance/radius`), the embedding takes the square-root
  function as an explicit parameter `sq : ℤ → ℚ` applied to the squared
  distance, so that theorems either hold for every `sq` or are evaluated
  at inputs whose squared distances are perfect squares (where any
  faithful `sq` is exact).
* `Building.ts` is absent from the repository sources (only its
  interface, callers, tests and README remain), so the `Building` value
  object is modelled from the spec; every such definition carries a
  doc comment starting with `Modelled from the spec:`.
-/

set_option linter.unusedVariables false

namespace CitySim

/-- Zone designation (`ZoneType` in `types.ts`). -/
inductive ZoneType
  | residential
  | commercial
  | industrial
deriving DecidableEq, Repr

/-- Infrastructure flag (`InfrastructureType` in `types.ts`). -/
inductive InfrastructureType
  | road
  | power
  | water
deriving DecidableEq, Repr

/-- Building size class (`BuildingSize` in `types.ts`). -/
inductive BuildingSize
  | small
  | medium
  | large
  | block2x2
deriving DecidableEq, Repr

/-- Concrete building kind (`BuildingType` in `types.ts`). -/
inductive BuildingType
  | house
  | apartment
  | villa
  | shop
  | office
  | mall
  | factory
  | warehouse
  | powerplant
  | hospital
  | school
  | police
  | park
  | residentialBlock
  | commercialBlock
  | industrialBlock
deriving DecidableEq, Repr

/-- The `clamp` helper of `utils.ts`: `Math.min(Math.max(value, min), max)`. -/
def clamp (value lo hi : ℚ) : ℚ :=
  min (max value lo) hi

/-- Squared Euclidean distance between two grid positions.  The source's
`calculateDistance` returns `Math.sqrt` of this quantity; see the header
comment for how comparisons and values are handled. -/
def distSq (x1 y1 x2 y2 : ℤ) : ℤ :=
  (x2 - x1) ^ 2 + (y2 - y1) ^ 2

/-- JavaScript `Math.round` of the rational `a / b` (for `b > 0`):
round half toward positive infinity, i.e. `⌊a/b + 1/2⌋`, computed as a
floored integer division. -/
def jsRound (a b : ℤ) : ℤ :=
  Int.fdiv (2 * a + b) (2 * b)

/-!
## Building (modelled from the spec)

`modules/Building.ts` is missing from the sources; the repository keeps
its interface (`types.ts`), its README description ("Handles building
upgrades (small → medium → large)"), a mock used by the power-grid demo
runner, and all call sites.  The fields and methods below are modelled
from those artifacts and from spec §3 and §4.
-/

/-- Modelled from the spec: the Building value object of the missing
`modules/Building.ts`.  Fields follow the `Building` interface in
`types.ts`; string ids are omitted because no embedded computation reads
them (the only id-sensitive caller, grid-context tax scaling, is not
exercised by the simulation tick, which calls `calculateTaxRevenue`
without a grid). -/
structure Building where
  x : ℤ
  y : ℤ
  type : ZoneType
  buildingType : Option BuildingType
  size : BuildingSize
  happiness : ℚ
  pollution : ℚ
  population : ℚ
  jobs : ℚ
  isBlock : Bool
deriving DecidableEq, Repr

/-- Modelled from the spec: per-type base stats of a freshly created
small building.  The spec fixes only that industrial buildings have a
pollution output (§8 uses 20) and that population/jobs exist as derived
stats; no claim below depends on the concrete numbers. -/
def baseStats (t : ZoneType) : ℚ × ℚ × ℚ :=
  match t with
  | .residential => (4, 0, 0)    -- population, jobs, pollution
  | .commercial => (0, 6, 2)
  | .industrial => (0, 8, 20)

/-- Modelled from the spec: the 4-argument `new Building(id, x, y, type)`
constructor used by `Zone.createBuilding`; creates a small, non-block
building of the zone-derived type with default stats. -/
def Building.create (x y : ℤ) (t : ZoneType) : Building :=
  { x := x, y := y, type := t, buildingType := none, size := .small
    happiness := 50, pollution := (baseStats t).2.2
    population := (baseStats t).1, jobs := (baseStats t).2.1
    isBlock := false }

/-- Modelled from the spec: the 9-argument block constructor used by
`City.createBlockBuilding`. -/
def Building.createBlock (x y : ℤ) (t : ZoneType) (bt : BuildingType) : Building :=
  { x := x, y := y, type := t, buildingType := some bt, size := .block2x2
    happiness := 50, pollution := (baseStats t).2.2
    population := (baseStats t).1, jobs := (baseStats t).2.1
    isBlock := true }

/-- Modelled from the spec: `Building.isServiceBuilding`.  Spec §4.3
(and the mock in the power-grid demo runner) give the service set
`{hospital, school, park}`. -/
def Building.isServiceBuilding (b : Building) : Bool :=
  b.buildingType = some .hospital ∨ b.buildingType = some .school ∨
    b.buildingType = some .park

/-- Modelled from the spec: `Building.getServiceType`, the service kind
used by the happiness model's per-type distance-decay dispatch
(park / school / hospital / powerplant, §4.2). -/
def Building.getServiceType (b : Building) : Option BuildingType :=
  match b.buildingType with
  | some .park => some .park
  | some .school => some .school
  | some .hospital => some .hospital
  | some .powerplant => some .powerplant
  | some .police => some .police
  | _ => none

/-- Modelled from the spec: `Building.upgrade` ("size advances one step
and stats recompute (monotonic; no downgrade path exists)"; block-2×2
buildings and large buildings never upgrade).  Returns whether an
upgrade happened together with the updated building. -/
def Building.upgrade (b : Building) : Bool × Building :=
  match b.size with
  | .small => (true, { b with size := .medium })
  | .medium => (true, { b with size := .large })
  | .large => (false, b)
  | .block2x2 => (false, b)

/-- Rank of a size class on the small→medium→large chain (block-2×2
buildings sit outside the chain and keep their own rank). -/
def sizeRank : BuildingSize → ℕ
  | .small => 0
  | .medium => 1
  | .large => 2
  | .block2x2 => 3

/-!
## Zone (`modules/Zone.ts`)
-/

/-- One cell of the city, as held by the `Zone` class.  Block-zone ids
(source: strings) are abstracted to naturals; nothing embedded reads
them except for `none`-ness and the anchor coordinates. -/
structure Zone where
  x : ℤ
  y : ℤ
  type : ZoneType
  infrastructure : List InfrastructureType
  building : Option Building
  happiness : ℚ
  pollution : ℚ
  blockZoneId : Option ℕ
  blockZoneX : Option ℤ
  blockZoneY : Option ℤ
deriving DecidableEq, Repr

/-- The `Zone` constructor.  Note the source's `this.type = type ||
ZoneType.RESIDENTIAL`: a `null` zone type is coerced to residential at
construction time, so the stored type is never `null`. -/
def Zone.init (x y : ℤ) (t : Option ZoneType) : Zone :=
  { x := x, y := y, type := t.getD .residential
    infrastructure := [], building := none
    happiness := 50, pollution := 0
    blockZoneId := none, blockZoneX := none, blockZoneY := none }

/-- `Zone.getType`.  The declared TypeScript return type is
`ZoneType | null`, but the stored field (see `Zone.init`) is never
null, so the getter always returns a non-null value. -/
def Zone.getType (z : Zone) : Option ZoneType :=
  some z.type

/-- `Zone.setType` (also coerces `null` to residential). -/
def Zone.setType (z : Zone) (t : Option ZoneType) : Zone :=
  { z with type := t.getD .residential }

/-- `Zone.setHappiness`: clamps into `[0, 100]`. -/
def Zone.setHappiness (z : Zone) (h : ℚ) : Zone :=
  { z with happiness := max 0 (min 100 h) }

/-- `Zone.setPollution`: clamps into `[0, 100]`. -/
def Zone.setPollution (z : Zone) (p : ℚ) : Zone :=
  { z with pollution := max 0 (min 100 p) }

/-- `Zone.addInfrastructure`: pushes the flag only when absent; returns
whether it was added. -/
def Zone.addInfrastructure (z : Zone) (t : InfrastructureType) : Bool × Zone :=
  if t ∈ z.infrastructure then (false, z)
  else (true, { z with infrastructure := z.infrastructure ++ [t] })

/-- `Zone.hasInfrastructure`. -/
def Zone.hasInfrastructure (z : Zone) (t : InfrastructureType) : Bool :=
  t ∈ z.infrastructure

/-- `hasAllBasicInfrastructure` of `utils.ts`, specialised to a zone:
road AND power AND water. -/
def Zone.hasAllBasicInfrastructure (z : Zone) : Bool :=
  z.hasInfrastructure .road && z.hasInfrastructure .power &&
    z.hasInfrastructure .water

/-- `Zone.shouldCreateBuilding`: requires *all* basic infrastructure,
then draws against `0.3 + 0.1·|infrastructure| + happiness/200`.
`draw` models the `Math.random()` call. -/
def Zone.shouldCreateBuilding (z : Zone) (draw : ℚ) : Bool :=
  if ¬ z.hasAllBasicInfrastructure then false
  else draw < 3/10 + (z.infrastructure.length : ℚ) * (1/10) + z.happiness / 200

/-- `Zone.createBuilding`: returns the new building (if any) and the
updated zone.  `draw` models the `Math.random()` inside
`shouldCreateBuilding`. -/
def Zone.createBuilding (z : Zone) (draw : ℚ) : Option Building × Zone :=
  match z.building with
  | some _ => (none, z)
  | none =>
    if z.shouldCreateBuilding draw then
      let b := Building.create z.x z.y z.type
      (some b, { z with building := some b })
    else (none, z)

/-- `Zone.shouldUpgradeBuilding`: building below large, all basic
infrastructure, happiness > 60, then a 20% draw. -/
def Zone.shouldUpgradeBuilding (z : Zone) (draw : ℚ) : Bool :=
  match z.building with
  | none => false
  | some b =>
    if b.size = .large then false
    else if z.hasAllBasicInfrastructure ∧ z.happiness > 60 then draw < 1/5
    else false

/-- Number of `Math.random()` draws `Zone.shouldUpgradeBuilding`
consumes (the draw only happens inside the final branch). -/
def Zone.shouldUpgradeDraws (z : Zone) : ℕ :=
  match z.building with
  | none => 0
  | some b =>
    if b.size = .large then 0
    else if z.hasAllBasicInfrastructure ∧ z.happiness > 60 then 1
    else 0

/-- `Zone.upgradeBuilding`: gated on `shouldUpgradeBuilding`, then calls
`Building.upgrade` (modelled from the spec). -/
def Zone.upgradeBuilding (z : Zone) (draw : ℚ) : Bool × Zone :=
  match z.building with
  | none => (false, z)
  | some b =>
    if z.shouldUpgradeBuilding draw then
      let r := b.upgrade
      (r.1, { z with building := some r.2 })
    else (false, z)

/-- `Zone.updatePollution`: building's own pollution output plus the
nearby-industrial term, clamped **only from above** (`Math.min(100, ..)`;
there is no lower clamp here, unlike `setPollution`). -/
def Zone.updatePollution (z : Zone) (nearbyIndustrialPollution : ℚ) : Zone :=
  let fromBuilding : ℚ := match z.building with
    | some b => b.pollution
    | none => 0
  { z with pollution := min 100 (fromBuilding + nearbyIndustrialPollution) }

/-- Number of `Math.random()` draws `Zone.shouldCreateBuilding`
consumes (the infrastructure precondition returns before the draw). -/
def Zone.shouldCreateDraws (z : Zone) : ℕ :=
  if z.hasAllBasicInfrastructure then 1 else 0

/-!
## Weather (`modules/WeatherManager.ts`)

The source keeps weather as process-wide static state; the embedding
threads an explicit `WeatherState` value and an explicit stream of
uniform draws (with its next-index counter) through every function that
reads or mutates it.
-/

/-- Weather kinds, in the order of `Object.values(WeatherType)` (used by
the random transition). -/
inductive WeatherType
  | sunny
  | cloudy
  | rainy
  | stormy
  | foggy
deriving DecidableEq, Repr

/-- Effect coefficients per weather kind (`WEATHER_EFFECTS`). -/
structure WeatherEffect where
  duration : ℤ
  happinessModifier : ℚ
  pollutionModifier : ℚ
  growthModifier : ℚ
deriving DecidableEq, Repr

/-- The `WEATHER_EFFECTS` table. -/
def weatherEffects : WeatherType → WeatherEffect
  | .sunny => { duration := 5, happinessModifier := 5, pollutionModifier := -2, growthModifier := 12/10 }
  | .cloudy => { duration := 3, happinessModifier := 0, pollutionModifier := 0, growthModifier := 1 }
  | .rainy => { duration := 4, happinessModifier := -3, pollutionModifier := -5, growthModifier := 8/10 }
  | .stormy => { duration := 2, happinessModifier := -8, pollutionModifier := -10, growthModifier := 5/10 }
  | .foggy => { duration := 3, happinessModifier := -2, pollutionModifier := 3, growthModifier := 9/10 }

/-- The mutable static weather state (`currentWeather`,
`weatherDuration`). -/
structure WeatherState where
  current : WeatherType
  duration : ℤ
deriving DecidableEq, Repr

/-- The initial static weather state (sunny, duration 5). -/
def initWeather : WeatherState :=
  { current := .sunny, duration := 5 }

/-- A stream of `Math.random()` results. -/
def RandStream : Type := ℕ → ℚ

/-- The list `Object.values(WeatherType)` indexed by
`Math.floor(Math.random() * length)`; out-of-range indices (impossible
for draws in `[0,1)`) default to the first entry. -/
def weatherKindAt (i : ℤ) : WeatherType :=
  [WeatherType.sunny, .cloudy, .rainy, .stormy, .foggy].getD i.toNat .sunny

/-- `WeatherManager.changeWeather`: pick a uniformly random kind and
reset the duration; consumes one draw. -/
def changeWeather (s : RandStream) (n : ℕ) : WeatherState × ℕ :=
  let k := weatherKindAt ⌊s n * 5⌋
  ({ current := k, duration := (weatherEffects k).duration }, n + 1)

/-- `WeatherManager.updateWeather`: decrement the duration, then change
weather when it has expired or a 30% roll succeeds.  The roll is
short-circuited (not drawn) when the duration has expired. -/
def updateWeather (ws : WeatherState) (s : RandStream) (n : ℕ) : WeatherState × ℕ :=
  let d := ws.duration - 1
  if d ≤ 0 then changeWeather s n
  else if s n < 3/10 then changeWeather s (n + 1)
  else ({ ws with duration := d }, n + 1)

/-- `WeatherManager.canGrowInCurrentWeather`: a fresh uniform draw
against the current growth modifier (re-randomised on every call). -/
def canGrowInCurrentWeather (ws : WeatherState) (draw : ℚ) : Bool :=
  draw < (weatherEffects ws.current).growthModifier

/-- `WeatherManager.applyWeatherPollutionEffect`: clamp the adjusted
pollution into `[0,100]`, then hand the *delta* to
`Zone.updatePollution` (which re-adds the building's own pollution
output and only clamps from above). -/
def applyWeatherPollutionEffect (ws : WeatherState) (z : Zone) : Zone :=
  let currentPollution := z.pollution
  let newPollution :=
    max 0 (min 100 (currentPollution + (weatherEffects ws.current).pollutionModifier))
  z.updatePollution (newPollution - currentPollution)

/-- `WeatherManager.applyWeatherHappinessEffect` (mutates the building's
own happiness stat, pre-clamped into `[0,100]`). -/
def applyWeatherHappinessEffect (ws : WeatherState) (b : Building) : Building :=
  let newHappiness :=
    max 0 (min 100 (b.happiness + (weatherEffects ws.current).happinessModifier))
  { b with happiness := newHappiness }

/-- `WeatherManager.applyWeatherEffects` over the whole zone grid. -/
def applyWeatherEffects (ws : WeatherState) (zones : List (List Zone)) :
    List (List Zone) :=
  zones.map fun row => row.map fun z =>
    let z1 := applyWeatherPollutionEffect ws z
    match z1.building with
    | some b => { z1 with building := some (applyWeatherHappinessEffect ws b) }
    | none => z1

/-!
## Grid cells (`GridCell` in `types.ts`) and `City.toGridFormat`
-/

/-- The plain grid-cell record exchanged with the power and
connectivity managers.  Only the fields read by embedded code are kept;
the power/connectivity annotation fields written by
`updateGridPowerStatus` / `updateGridConnectivity` are included because
those passes write them (no embedded computation reads them back). -/
structure GridCell where
  x : ℤ
  y : ℤ
  zoneType : Option ZoneType
  infrastructure : List InfrastructureType
  building : Option Building
  happiness : ℚ
  pollution : ℚ
  hasPower : Bool
  powerCapacity : ℚ
  powerDemand : ℚ
  hasRoad : Bool
  hasWater : Bool
  connectivityEfficiency : Option ℚ
deriving DecidableEq, Repr

/-- A default cell used only to make out-of-range list indexing total;
every embedded access is guarded by the same bounds checks the source
performs, so this default is never produced by an in-contract run. -/
def defaultCell : GridCell :=
  { x := 0, y := 0, zoneType := none, infrastructure := [], building := none
    happiness := 0, pollution := 0, hasPower := false
    powerCapacity := 0, powerDemand := 0
    hasRoad := false, hasWater := false, connectivityEfficiency := none }

/-- `grid[y][x]` (total version; see `defaultCell`). -/
def cellAt (grid : List (List GridCell)) (x y : ℤ) : GridCell :=
  (grid.getD y.toNat []).getD x.toNat defaultCell

/-- `hasInfrastructure` of `utils.ts` on a grid cell. -/
def GridCell.hasInfra (c : GridCell) (t : InfrastructureType) : Bool :=
  t ∈ c.infrastructure

/-- `City.toGridFormat` restricted to one zone. -/
def Zone.toGridCell (z : Zone) : GridCell :=
  { x := z.x, y := z.y, zoneType := some z.type
    infrastructure := z.infrastructure, building := z.building
    happiness := z.happiness, pollution := z.pollution
    hasPower := false, powerCapacity := 0, powerDemand := 0
    hasRoad := false, hasWater := false, connectivityEfficiency := none }

/-- `City.toGridFormat` over the whole grid. -/
def toGridFormat (zones : List (List Zone)) : List (List GridCell) :=
  zones.map fun row => row.map Zone.toGridCell

/-!
## Power grid (`modules/PowerGridManager.ts`)
-/

/-- Power node identity.  The source builds string ids
`power_source_x_y` / `power_consumer_x_y`; the two constructors below
are exactly that injective encoding. -/
inductive PowerNodeId
  | sourceId (x y : ℤ)
  | consumerId (x y : ℤ)
deriving DecidableEq, Repr

/-- Node role (`'source' | 'consumer'`). -/
inductive PowerNodeType
  | source
  | consumer
deriving DecidableEq, Repr

/-- A `PowerNode`. -/
structure PowerNode where
  id : PowerNodeId
  x : ℤ
  y : ℤ
  ntype : PowerNodeType
  capacity : ℚ
  demand : ℚ
  connected : Bool
  powerSource : Option PowerNodeId
deriving DecidableEq, Repr

/-- A `PowerConnection`.  The source also stores a distance and a
distance-decayed efficiency (`max(0.1, 0.95 − 0.01·d)`); the embedding
keeps the squared distance instead (the efficiency involves the
irrational `d` and is read by no other embedded computation). -/
structure PowerConnection where
  fromId : PowerNodeId
  toId : PowerNodeId
  capacity : ℚ
  dSq : ℤ
deriving DecidableEq, Repr

/-- The `PowerGrid` snapshot returned by
`calculatePowerDistribution`. -/
structure PowerGrid where
  nodes : List PowerNode
  connections : List PowerConnection
  totalCapacity : ℚ
  totalDemand : ℚ
  efficiency : ℚ
deriving DecidableEq, Repr

/-- `isPowerSource`: the building is a power plant. -/
def isPowerSource (b : Building) : Bool :=
  b.buildingType = some .powerplant

/-- `isPowerConsumer`: every non-power-plant building consumes. -/
def isPowerConsumer (b : Building) : Bool :=
  ¬ b.buildingType = some .powerplant

/-- `getPowerSourceCapacity` (`POWERPLANT_CAPACITY = 1000`). -/
def getPowerSourceCapacity (b : Building) : ℚ :=
  if b.buildingType = some .powerplant then 1000 else 0

/-- `getBuildingPowerDemand`: base 10 × size multiplier, doubled for
service buildings, ×1.5 for block buildings. -/
def getBuildingPowerDemand (b : Building) : ℚ :=
  let baseDemand : ℚ := 10
  let sizeMultiplier : ℚ :=
    match b.size with
    | .small => 1
    | .medium => 2
    | .large => 4
    | .block2x2 => 6
  if b.isServiceBuilding then baseDemand * sizeMultiplier * 2
  else if b.isBlock then baseDemand * sizeMultiplier * (3/2)
  else baseDemand * sizeMultiplier

/-- `buildPowerNodes`: one source node per power-plant cell and one
consumer node per other building cell, in row-major scan order. -/
def buildPowerNodes (grid : List (List GridCell)) : List PowerNode :=
  (grid.enum.map fun (y, row) =>
    (row.enum.map fun (x, cell) =>
      match cell.building with
      | none => []
      | some b =>
        (if isPowerSource b then
          [{ id := .sourceId x y, x := x, y := y, ntype := .source
             capacity := getPowerSourceCapacity b, demand := 0
             connected := true, powerSource := some (.sourceId x y) }]
        else []) ++
        (if isPowerConsumer b then
          [{ id := .consumerId x y, x := x, y := y, ntype := .consumer
             capacity := 0, demand := getBuildingPowerDemand b
             connected := false, powerSource := none }]
        else [])).flatten).flatten

/-- One iteration of the `findNearestPowerSource` scan, carrying the
best source seen so far with its squared distance (the source carries
`minDistance`, initially infinite; `d < minDistance && d <= 8` becomes
the squared compare `d² < best² ∧ d² ≤ 64`). -/
def nearestStep (consumer : PowerNode) (best : Option (PowerNode × ℤ))
    (src : PowerNode) : Option (PowerNode × ℤ) :=
  let d := distSq consumer.x consumer.y src.x src.y
  match best with
  | none => if d ≤ 64 then some (src, d) else best
  | some (_, bd) => if d < bd ∧ d ≤ 64 then some (src, d) else best

/-- `findNearestPowerSource`: linear scan keeping the strictly nearest
source within `POWER_TRANSMISSION_RANGE = 8`. -/
def findNearestPowerSource (consumer : PowerNode) (sources : List PowerNode) :
    Option PowerNode :=
  (sources.foldl (nearestStep consumer) none).map Prod.fst

/-- `hasPowerLinePath`: rasterize the straight segment with
`Math.round(start + delta·i/steps)` and require the `power` flag on
every in-bounds sample.  When `steps = 0` the JS computation produces
`NaN` coordinates, the bounds check fails, and the loop returns
`true`. -/
def hasPowerLinePath (startX startY endX endY : ℤ)
    (grid : List (List GridCell)) : Bool :=
  let dx := endX - startX
  let dy := endY - startY
  let steps := max dx.natAbs dy.natAbs
  if steps = 0 then true
  else
    (List.range (steps + 1)).all fun i =>
      let x := jsRound (startX * steps + dx * i) steps
      let y := jsRound (startY * steps + dy * i) steps
      if 0 ≤ x ∧ x < ((grid.getD 0 []).length : ℤ) ∧ 0 ≤ y ∧ y < (grid.length : ℤ)
      then (cellAt grid x y).hasInfra .power
      else true

/-- `canTransmitPower`. -/
def canTransmitPower (consumer source : PowerNode)
    (grid : List (List GridCell)) : Bool :=
  hasPowerLinePath consumer.x consumer.y source.x source.y grid

/-- Replace the first node whose id matches (JS `Array.find` returns a
reference to the first match, which is then mutated in place). -/
def updateNode (i : PowerNodeId) (f : PowerNode → PowerNode) :
    List PowerNode → List PowerNode
  | [] => []
  | n :: ns => if n.id = i then f n :: ns else n :: updateNode i f ns

/-- `buildPowerConnections`: for each consumer in node order, connect it
to the nearest reachable source (marking the consumer node connected as
the source does).  Returns the connection list and the updated nodes. -/
def buildPowerConnections (nodes : List PowerNode)
    (grid : List (List GridCell)) : List PowerConnection × List PowerNode :=
  let powerSources := nodes.filter fun n => n.ntype = .source
  let consumers := nodes.filter fun n => n.ntype = .consumer
  consumers.foldl
    (fun (acc : List PowerConnection × List PowerNode) consumer =>
      match findNearestPowerSource consumer powerSources with
      | none => acc
      | some nearestSource =>
        if canTransmitPower consumer nearestSource grid then
          (acc.1 ++ [{ fromId := nearestSource.id, toId := consumer.id
                       capacity := min nearestSource.capacity consumer.demand
                       dSq := distSq consumer.x consumer.y nearestSource.x nearestSource.y }],
           updateNode consumer.id
             (fun n => { n with connected := true, powerSource := some nearestSource.id })
             acc.2)
        else acc)
    ([], nodes)

/-- The reset loop at the top of `simulatePowerFlow`: consumers become
disconnected. -/
def resetConsumers (nodes : List PowerNode) : List PowerNode :=
  nodes.map fun n =>
    if n.ntype = .consumer then { n with connected := false, powerSource := none }
    else n

/-- One iteration of the `simulatePowerFlow` connection loop.  Both
nodes are looked up first (as in the source); with sufficient capacity
the consumer is satisfied fully and the source decremented, otherwise
the consumer's demand is clamped down to the remaining capacity and the
source zeroed. -/
def flowStep (nodes : List PowerNode) (conn : PowerConnection) : List PowerNode :=
  match nodes.find? (fun n => n.id = conn.fromId),
        nodes.find? (fun n => n.id = conn.toId) with
  | some sourceNode, some consumerNode =>
    let availablePower := sourceNode.capacity
    let requiredPower := consumerNode.demand
    if requiredPower ≤ availablePower then
      updateNode conn.fromId (fun n => { n with capacity := n.capacity - requiredPower })
        (updateNode conn.toId
          (fun n => { n with connected := true, powerSource := some sourceNode.id }) nodes)
    else
      updateNode conn.fromId (fun n => { n with capacity := 0 })
        (updateNode conn.toId
          (fun n =>
            { n with connected := true, powerSource := some sourceNode.id,
                     demand := availablePower }) nodes)
  | _, _ => nodes

/-- `simulatePowerFlow`: reset, then process the connections in
order. -/
def simulatePowerFlow (nodes : List PowerNode)
    (connections : List PowerConnection) : List PowerNode :=
  connections.foldl flowStep (resetConsumers nodes)

/-- Sum of `capacity` over source nodes. -/
def sumSourceCapacity (nodes : List PowerNode) : ℚ :=
  (nodes.map fun n => if n.ntype = .source then n.capacity else 0).sum

/-- Sum of `demand` over consumer nodes. -/
def sumConsumerDemand (nodes : List PowerNode) : ℚ :=
  (nodes.map fun n => if n.ntype = .consumer then n.demand else 0).sum

/-- Sum of `demand` over *connected* consumer nodes (the power actually
allotted after the flow pass). -/
def sumConnectedDemand (nodes : List PowerNode) : ℚ :=
  (nodes.map fun n => if n.ntype = .consumer ∧ n.connected then n.demand else 0).sum

/-- `calculatePowerDistribution`: build nodes and connections, simulate
the flow, then compute the grid statistics **from the post-flow node
list** (the source sums `node.capacity` / `node.demand` after
`simulatePowerFlow` has already mutated them). -/
def calculatePowerDistribution (grid : List (List GridCell)) : PowerGrid :=
  let nodes0 := buildPowerNodes grid
  let built := buildPowerConnections nodes0 grid
  let nodes := simulatePowerFlow built.2 built.1
  let totalCapacity := sumSourceCapacity nodes
  let totalDemand := sumConsumerDemand nodes
  let efficiency := if 0 < totalCapacity then min 1 (totalDemand / totalCapacity) else 0
  { nodes := nodes, connections := built.1
    totalCapacity := totalCapacity, totalDemand := totalDemand
    efficiency := efficiency }

/-- `isPowerGridOverloaded` (`POWER_OVERLOAD_THRESHOLD = 0.9`). -/
def isPowerGridOverloaded (pg : PowerGrid) : Bool :=
  pg.efficiency > 9/10

/-- `getPowerShortageAreas`: the disconnected consumers. -/
def getPowerShortageAreas (pg : PowerGrid) : List PowerNode :=
  pg.nodes.filter fun n => n.ntype = .consumer ∧ ¬ n.connected

/-- `updateGridPowerStatus`: reset every cell's power annotations, then
copy each node's state onto its cell. -/
def updateGridPowerStatus (grid : List (List GridCell)) (pg : PowerGrid) :
    List (List GridCell) :=
  let cleared := grid.map fun row => row.map fun c =>
    { c with hasPower := false, powerCapacity := 0, powerDemand := 0 }
  pg.nodes.foldl
    (fun g n =>
      if 0 ≤ n.x ∧ n.x < ((g.getD 0 []).length : ℤ) ∧ 0 ≤ n.y ∧ n.y < (g.length : ℤ) then
        g.map fun row => row.map fun c =>
          if c.x = n.x ∧ c.y = n.y then
            { c with hasPower := n.connected
                     powerCapacity := n.capacity, powerDemand := n.demand }
          else c
      else g)
    cleared

/-!
## Infrastructure connectivity (`modules/InfrastructureConnectivityManager.ts`)
-/

/-- The detection radius per infrastructure type
(`ROAD_CONNECTION_RANGE = 1`, `POWER_CONNECTION_RANGE = 8`,
`WATER_CONNECTION_RANGE = 6`). -/
def connectionRange : InfrastructureType → ℕ
  | .road => 1
  | .power => 8
  | .water => 6

/-- Grid width as the source computes it (`grid[0].length`). -/
def gridWidth (grid : List (List GridCell)) : ℕ :=
  (grid.getD 0 []).length

/-- Wellformedness of a cell index pair against the source's bounds
checks (`x >= 0 && x < grid[0].length && y >= 0 && y < grid.length`). -/
def inBounds (grid : List (List GridCell)) (x y : ℤ) : Bool :=
  0 ≤ x ∧ x < (gridWidth grid : ℤ) ∧ 0 ≤ y ∧ y < (grid.length : ℤ)

/-- `getNeighbors`: the cells of the `(2·range+1)²` bounding box, minus
the centre and out-of-bounds samples, restricted to Euclidean distance
at most `range` (squared compare, see the header comment), in the
source's scan order (`dy` outer, `dx` inner). -/
def getNeighbors (x y : ℤ) (range : ℕ) (grid : List (List GridCell)) :
    List GridCell :=
  ((List.range (2 * range + 1)).map fun (dyi : ℕ) =>
    ((List.range (2 * range + 1)).filterMap fun (dxi : ℕ) =>
      let dx : ℤ := (dxi : ℤ) - range
      let dy : ℤ := (dyi : ℤ) - range
      let nx := x + dx
      let ny := y + dy
      if (dx = 0 ∧ dy = 0) ∨ ¬ inBounds grid nx ny then none
      else if distSq x y nx ny ≤ (range : ℤ) ^ 2 then some (cellAt grid nx ny)
      else none)).flatten

/-- Shared body of `hasRoadConnectivity` / `hasPowerConnectivity` /
`hasWaterConnectivity`: out of bounds fails closed; otherwise the cell
itself carries the flag, or some neighbor within the type's detection
radius does. -/
def hasTypeConnectivity (t : InfrastructureType) (x y : ℤ)
    (grid : List (List GridCell)) : Bool :=
  if ¬ inBounds grid x y then false
  else if (cellAt grid x y).hasInfra t then true
  else (getNeighbors x y (connectionRange t) grid).any fun c => c.hasInfra t

/-- `hasRoadConnectivity`. -/
def hasRoadConnectivity (x y : ℤ) (grid : List (List GridCell)) : Bool :=
  hasTypeConnectivity .road x y grid

/-- `hasPowerConnectivity` (the proximity-based notion, distinct from
the power-flow engine's). -/
def hasPowerConnectivity (x y : ℤ) (grid : List (List GridCell)) : Bool :=
  hasTypeConnectivity .power x y grid

/-- `hasWaterConnectivity`. -/
def hasWaterConnectivity (x y : ℤ) (grid : List (List GridCell)) : Bool :=
  hasTypeConnectivity .water x y grid

/-- Connectivity status (`'bright' | 'dim' | 'dark'`). -/
inductive ConnectivityStatus
  | bright
  | dim
  | dark
deriving DecidableEq, Repr

/-- Modelled from the spec: `Building.getConnectivityStatus` lives in
the missing `Building.ts`.  Spec §3/§4.4: bright = all required
infrastructure reachable, dim = at least half, dark = less; the
required set is building-specific (spec's example: parks do not require
road). -/
def Building.requiredInfra (b : Building) : List InfrastructureType :=
  if b.buildingType = some .park then [.power, .water]
  else [.road, .power, .water]

/-- Modelled from the spec: see `Building.requiredInfra`. -/
def Building.getConnectivityStatus (b : Building) (road power water : Bool) :
    ConnectivityStatus :=
  let req := b.requiredInfra
  let has : InfrastructureType → Bool := fun t =>
    match t with | .road => road | .power => power | .water => water
  let okCount := (req.filter has).length
  if okCount = req.length then .bright
  else if req.length ≤ 2 * okCount then .dim
  else .dark

/-- Modelled from the spec: `Building.getInfrastructureEfficiency`
(§4.4): the base "fraction connected" efficiency with multiplicative
absence penalties (road ×0.2, power ×0.3, water ×0.4), floored at
0.1. -/
def Building.getInfrastructureEfficiency (b : Building)
    (road power water : Bool) : ℚ :=
  let req := b.requiredInfra
  let has : InfrastructureType → Bool := fun t =>
    match t with | .road => road | .power => power | .water => water
  let okCount := (req.filter has).length
  let base : ℚ := if req.length = 0 then 1 else (okCount : ℚ) / (req.length : ℚ)
  let p1 : ℚ := if .road ∈ req ∧ ¬ road then 2/10 else 1
  let p2 : ℚ := if .power ∈ req ∧ ¬ power then 3/10 else 1
  let p3 : ℚ := if .water ∈ req ∧ ¬ water then 4/10 else 1
  max (1/10) (base * p1 * p2 * p3)

/-- Result of `getBuildingConnectivity`. -/
structure BuildingConnectivity where
  road : Bool
  power : Bool
  water : Bool
  status : ConnectivityStatus
  efficiency : ℚ
deriving DecidableEq, Repr

/-- `getBuildingConnectivity`: the three proximity booleans, then the
status/efficiency from the building (or the no-building fallback). -/
def getBuildingConnectivity (x y : ℤ) (grid : List (List GridCell)) :
    BuildingConnectivity :=
  let road := hasRoadConnectivity x y grid
  let power := hasPowerConnectivity x y grid
  let water := hasWaterConnectivity x y grid
  match (cellAt grid x y).building with
  | some b =>
    { road := road, power := power, water := water
      status := b.getConnectivityStatus road power water
      efficiency := b.getInfrastructureEfficiency road power water }
  | none =>
    let connectedCount := (([road, power, water]).filter id).length
    if connectedCount = 3 then
      { road := road, power := power, water := water, status := .bright, efficiency := 1 }
    else if 2 ≤ connectedCount then
      { road := road, power := power, water := water, status := .dim, efficiency := 6/10 }
    else
      { road := road, power := power, water := water, status := .dark, efficiency := 3/10 }

/-- `updateGridConnectivity`: annotate every building cell with its
connectivity result (all reads are against the incoming grid; the
written fields are read back by no embedded computation). -/
def updateGridConnectivity (grid : List (List GridCell)) :
    List (List GridCell) :=
  grid.enum.map fun (y, row) => row.enum.map fun (x, c) =>
    match c.building with
    | some _ =>
      let conn := getBuildingConnectivity x y grid
      { c with hasRoad := conn.road, hasPower := conn.power, hasWater := conn.water
               connectivityEfficiency := some conn.efficiency }
    | none => c

/-- The record returned by `getGridConnectivityStats`.  The source
field `partiallyConnected` is named `partlyConnected` here. -/
structure ConnectivityStats where
  totalBuildings : ℕ
  fullyConnected : ℕ
  partlyConnected : ℕ
  poorlyConnected : ℕ
  averageEfficiency : ℚ
  roadCoverage : ℚ
  powerCoverage : ℚ
  waterCoverage : ℚ
deriving DecidableEq, Repr

/-- `getGridConnectivityStats`: aggregate `getBuildingConnectivity`
over every building cell. -/
def getGridConnectivityStats (grid : List (List GridCell)) :
    ConnectivityStats :=
  let conns := (grid.enum.map fun (y, row) => row.enum.filterMap fun (x, c) =>
    match c.building with
    | some _ => some (getBuildingConnectivity x y grid)
    | none => none).flatten
  let totalBuildings := conns.length
  let fullyConnected := (conns.filter fun c => c.status = .bright).length
  let partlyConnected := (conns.filter fun c => c.status = .dim).length
  let poorlyConnected := (conns.filter fun c => c.status = .dark).length
  let totalEfficiency := (conns.map fun c => c.efficiency).sum
  let roadConnected := (conns.filter fun c => c.road).length
  let powerConnected := (conns.filter fun c => c.power).length
  let waterConnected := (conns.filter fun c => c.water).length
  { totalBuildings := totalBuildings
    fullyConnected := fullyConnected
    partlyConnected := partlyConnected
    poorlyConnected := poorlyConnected
    averageEfficiency :=
      if 0 < totalBuildings then totalEfficiency / (totalBuildings : ℚ) else 0
    roadCoverage :=
      if 0 < totalBuildings then (roadConnected : ℚ) / (totalBuildings : ℚ) else 0
    powerCoverage :=
      if 0 < totalBuildings then (powerConnected : ℚ) / (totalBuildings : ℚ) else 0
    waterCoverage :=
      if 0 < totalBuildings then (waterConnected : ℚ) / (totalBuildings : ℚ) else 0 }

/-!
## Happiness model (`modules/HappinessManager.ts`)

Functions that use the Euclidean distance *value* take the square-root
oracle `sq : ℤ → ℚ` (applied to squared distances) as a parameter;
distance *comparisons* are done on squares (exactly equivalent to the
source's comparisons of real square roots against non-negative
bounds).
-/

/-- A placeholder zone making `zones[y][x]` total; every embedded
access is guarded by the same bounds checks the source performs. -/
def defaultZone : Zone :=
  Zone.init 0 0 none

/-- `zones[y][x]` (total version; see `defaultZone`). -/
def zoneAt (zones : List (List Zone)) (x y : ℤ) : Zone :=
  (zones.getD y.toNat []).getD x.toNat defaultZone

/-- Replace `zones[y][x]`. -/
def setZoneAt (zones : List (List Zone)) (x y : ℤ) (z : Zone) :
    List (List Zone) :=
  zones.set y.toNat ((zones.getD y.toNat []).set x.toNat z)

/-- Zone-grid bounds check (`nx >= 0 && nx < gridWidth && ny >= 0 &&
ny < gridHeight`). -/
def zInBounds (w h : ℕ) (x y : ℤ) : Bool :=
  0 ≤ x ∧ x < (w : ℤ) ∧ 0 ≤ y ∧ y < (h : ℤ)

/-- `HappinessManager.calculateZoneHappiness`: base 60, ±infrastructure
term, minus local pollution, neighbor bonus capped at 10, residential
employment bonus capped at 15; clamped into `[0,100]`. -/
def calculateZoneHappiness (zone : Zone) (neighboringBuildings : ℕ)
    (localPollution : ℚ) (nearbyJobs : ℤ) : ℚ :=
  let base : ℚ := 60
  let infra : ℚ := if zone.hasAllBasicInfrastructure then 20 else -10
  let neighbor : ℚ := min 10 ((neighboringBuildings : ℚ) * 2)
  let employment : ℚ :=
    if zone.type = .residential then min 15 ((nearbyJobs : ℚ) * 1) else 0
  clamp (base + infra - localPollution + neighbor + employment) 0 100

/-- `HappinessManager.getServiceBuildingEffect`: the per-service-type
distance-decay rules.  Note that the decay factor is `1 − d/maxRadius`
with the *caller's* radius (`SERVICE_BUILDING_RADIUS = 8`) for every
type, while the per-type cutoffs are 3/5/8(implicit)/2-and-5. -/
def getServiceBuildingEffect (b : Building) (distance maxRadius : ℚ) : ℚ :=
  let distanceFactor := 1 - distance / maxRadius
  match b.getServiceType with
  | some .park => if distance ≤ 3 then 15 * distanceFactor else 0
  | some .school => if distance ≤ 5 then 10 * distanceFactor else 0
  | some .hospital => 8 * distanceFactor
  | some .powerplant =>
    if distance ≤ 2 then -20
    else if distance ≤ 5 then 5 * distanceFactor
    else 0
  | _ => 0

/-- `HappinessManager.calculateServiceBuildingEffects`: sum the service
effect of every service building within `SERVICE_BUILDING_RADIUS = 8`
(bounding-box scan, squared-distance range check). -/
def calculateServiceBuildingEffects (sq : ℤ → ℚ) (x y : ℤ)
    (zones : List (List Zone)) (w h : ℕ) : ℚ :=
  let radius : ℕ := 8
  (((List.range (2 * radius + 1)).map fun dyi =>
    ((List.range (2 * radius + 1)).filterMap fun dxi =>
      let nx := x + (dxi : ℤ) - radius
      let ny := y + (dyi : ℤ) - radius
      if ¬ zInBounds w h nx ny then none
      else if distSq x y nx ny ≤ (radius : ℤ) ^ 2 then
        match (zoneAt zones nx ny).building with
        | some b =>
          if b.isServiceBuilding then
            some (getServiceBuildingEffect b (sq (distSq x y nx ny)) radius)
          else none
        | none => none
      else none)).flatten).sum

/-- `HappinessManager.calculateLocalPollution`: industrial buildings
within `POLLUTION_RADIUS = 3`, each contributing
`pollution · (1 − d/3) · 0.2`. -/
def calculateLocalPollution (sq : ℤ → ℚ) (x y : ℤ)
    (zones : List (List Zone)) (w h : ℕ) : ℚ :=
  let radius : ℕ := 3
  (((List.range (2 * radius + 1)).map fun dyi =>
    ((List.range (2 * radius + 1)).filterMap fun dxi =>
      let nx := x + (dxi : ℤ) - radius
      let ny := y + (dyi : ℤ) - radius
      if ¬ zInBounds w h nx ny then none
      else if distSq x y nx ny ≤ (radius : ℤ) ^ 2 then
        match (zoneAt zones nx ny).building with
        | some b =>
          if b.type = .industrial then
            some (b.pollution * (1 - sq (distSq x y nx ny) / radius) * (2/10))
          else none
        | none => none
      else none)).flatten).sum

/-- `HappinessManager.countNearbyJobs`: jobs within
`JOB_SEARCH_RADIUS = 5`, weighted `jobs · (1 − d/5) · 0.1`, floored to
an integer at the end. -/
def countNearbyJobs (sq : ℤ → ℚ) (x y : ℤ)
    (zones : List (List Zone)) (w h : ℕ) : ℤ :=
  let radius : ℕ := 5
  ⌊(((List.range (2 * radius + 1)).map fun dyi =>
    ((List.range (2 * radius + 1)).filterMap fun dxi =>
      let nx := x + (dxi : ℤ) - radius
      let ny := y + (dyi : ℤ) - radius
      if ¬ zInBounds w h nx ny then none
      else if distSq x y nx ny ≤ (radius : ℤ) ^ 2 then
        match (zoneAt zones nx ny).building with
        | some b =>
          if 0 < b.jobs then
            some (b.jobs * (1 - sq (distSq x y nx ny) / radius) * (1/10))
          else none
        | none => none
      else none)).flatten).sum⌋

/-- `HappinessManager.countNeighboringBuildings`: buildings among the
8 Moore neighbors. -/
def countNeighboringBuildings (x y : ℤ) (zones : List (List Zone))
    (w h : ℕ) : ℕ :=
  (((List.range 3).map fun dyi =>
    ((List.range 3).filterMap fun dxi =>
      let dx : ℤ := (dxi : ℤ) - 1
      let dy : ℤ := (dyi : ℤ) - 1
      if dx = 0 ∧ dy = 0 then none
      else if ¬ zInBounds w h (x + dx) (y + dy) then none
      else match (zoneAt zones (x + dx) (y + dy)).building with
        | some _ => some ()
        | none => none)).flatten).length

/-- One cell of `HappinessManager.updateAllZoneHappiness`: compute the
terms, add the service effects, clamp, and store via
`Zone.setHappiness`. -/
def updateOneZoneHappiness (sq : ℤ → ℚ) (zones : List (List Zone))
    (w h : ℕ) (x y : ℤ) : List (List Zone) :=
  let zone := zoneAt zones x y
  let neighboringBuildings := countNeighboringBuildings x y zones w h
  let localPollution := calculateLocalPollution sq x y zones w h
  let nearbyJobs := countNearbyJobs sq x y zones w h
  let serviceEffects := calculateServiceBuildingEffects sq x y zones w h
  let happiness :=
    calculateZoneHappiness zone neighboringBuildings localPollution nearbyJobs
  let happiness := clamp (happiness + serviceEffects) 0 100
  setZoneAt zones x y (zone.setHappiness happiness)

/-- `HappinessManager.updateAllZoneHappiness`: sequential row-major
pass (each cell reads the grid as already mutated by earlier cells,
as in the source; only the happiness field is written). -/
def updateAllZoneHappiness (sq : ℤ → ℚ) (zones : List (List Zone))
    (w h : ℕ) : List (List Zone) :=
  (List.range h).foldl
    (fun zs y =>
      (List.range w).foldl
        (fun zs' x => updateOneZoneHappiness sq zs' w h x y) zs)
    zones

/-!
## Transport (`modules/TransportManager.ts`)

Only the pieces reachable from the simulation tick are embedded:
`applyTransportHappinessEffect` and the helpers it calls.  The pass
writes only the *building's* happiness stat, which no other embedded
computation reads back.
-/

/-- `TransportManager.calculateConnectivity`: infrastructure density
within `MAX_CONNECTIVITY_RANGE = 5`, weighted by `1 − d/5`, capped at
100.  Note the centre cell is *included* (no `dx = dy = 0` skip). -/
def calculateConnectivity (sq : ℤ → ℚ) (x y : ℤ)
    (zones : List (List Zone)) (w h : ℕ) : ℚ :=
  let range : ℕ := 5
  min 100
    ((((List.range (2 * range + 1)).map fun dyi =>
      ((List.range (2 * range + 1)).filterMap fun dxi =>
        let nx := x + (dxi : ℤ) - range
        let ny := y + (dyi : ℤ) - range
        if ¬ zInBounds w h nx ny then none
        else if distSq x y nx ny ≤ (range : ℤ) ^ 2 then
          let nz := zoneAt zones nx ny
          if 0 < nz.infrastructure.length then
            some ((1 - sq (distSq x y nx ny) / range) * (nz.infrastructure.length : ℚ))
          else none
        else none)).flatten).sum)

/-- `TransportManager.calculateTransportEfficiency`: per-flag base
efficiencies (road 0.8, power 0.9, water 0.85) plus connectivity/100,
capped at 1. -/
def calculateTransportEfficiency (sq : ℤ → ℚ) (zone : Zone)
    (zones : List (List Zone)) (w h : ℕ) : ℚ :=
  let infraSum : ℚ :=
    (zone.infrastructure.map fun t =>
      match t with
      | .road => (8 : ℚ)/10
      | .power => (9 : ℚ)/10
      | .water => (85 : ℚ)/100).sum
  let connectivity := calculateConnectivity sq zone.x zone.y zones w h
  min 1 (infraSum + connectivity / 100)

/-- `TransportManager.calculateJobAccessibility` (range 8), floored. -/
def calculateJobAccessibility (sq : ℤ → ℚ) (x y : ℤ)
    (zones : List (List Zone)) (w h : ℕ) : ℤ :=
  let range : ℕ := 8
  ⌊(((List.range (2 * range + 1)).map fun dyi =>
    ((List.range (2 * range + 1)).filterMap fun dxi =>
      let nx := x + (dxi : ℤ) - range
      let ny := y + (dyi : ℤ) - range
      if ¬ zInBounds w h nx ny then none
      else if distSq x y nx ny ≤ (range : ℤ) ^ 2 then
        let nz := zoneAt zones nx ny
        match nz.building with
        | some b =>
          if 0 < b.jobs then
            some (b.jobs * (1 - sq (distSq x y nx ny) / range) *
              calculateTransportEfficiency sq nz zones w h)
          else none
        | none => none
      else none)).flatten).sum⌋

/-- `TransportManager.calculateServiceAccessibility` (range 6),
floored. -/
def calculateServiceAccessibility (sq : ℤ → ℚ) (x y : ℤ)
    (zones : List (List Zone)) (w h : ℕ) : ℤ :=
  let range : ℕ := 6
  ⌊(((List.range (2 * range + 1)).map fun dyi =>
    ((List.range (2 * range + 1)).filterMap fun dxi =>
      let nx := x + (dxi : ℤ) - range
      let ny := y + (dyi : ℤ) - range
      if ¬ zInBounds w h nx ny then none
      else if distSq x y nx ny ≤ (range : ℤ) ^ 2 then
        let nz := zoneAt zones nx ny
        match nz.building with
        | some b =>
          if b.type = .residential then
            some (b.population * (1 - sq (distSq x y nx ny) / range) *
              calculateTransportEfficiency sq nz zones w h)
          else none
        | none => none
      else none)).flatten).sum⌋

/-- `TransportManager.calculateSupplyChainEfficiency` (range 10),
`min(1, sum/10)`. -/
def calculateSupplyChainEfficiency (sq : ℤ → ℚ) (x y : ℤ)
    (zones : List (List Zone)) (w h : ℕ) : ℚ :=
  let range : ℕ := 10
  min 1
    (((((List.range (2 * range + 1)).map fun dyi =>
      ((List.range (2 * range + 1)).filterMap fun dxi =>
        let nx := x + (dxi : ℤ) - range
        let ny := y + (dyi : ℤ) - range
        if ¬ zInBounds w h nx ny then none
        else if distSq x y nx ny ≤ (range : ℤ) ^ 2 then
          let nz := zoneAt zones nx ny
          match nz.building with
          | some b =>
            if b.type = .industrial then
              some ((1 - sq (distSq x y nx ny) / range) *
                calculateTransportEfficiency sq nz zones w h)
            else none
          | none => none
        else none)).flatten).sum) / 10)

/-- `TransportManager.applyTransportHappinessEffect`: the connectivity
bonus/penalty plus the zone-type-specific accessibility bonus, clamped
and written to the *building's* happiness (the zone's own happiness is
left unchanged, as the source comment concedes). -/
def applyTransportHappinessEffect (sq : ℤ → ℚ) (zone : Zone)
    (zones : List (List Zone)) (w h : ℕ) : Zone :=
  let connectivity := calculateConnectivity sq zone.x zone.y zones w h
  let base : ℚ :=
    if 50 < connectivity then 15
    else if connectivity < 10 then -10
    else 0
  let happinessModifier : ℚ :=
    base +
      (match zone.type with
       | .residential =>
         min 10 ((calculateJobAccessibility sq zone.x zone.y zones w h : ℚ) / 10)
       | .commercial =>
         min 10 ((calculateServiceAccessibility sq zone.x zone.y zones w h : ℚ) / 20)
       | .industrial =>
         min 5 (calculateSupplyChainEfficiency sq zone.x zone.y zones w h * 10))
  let newHappiness := max 0 (min 100 (zone.happiness + happinessModifier))
  match zone.building with
  | some b => { zone with building := some { b with happiness := newHappiness } }
  | none => zone

/-!
## Economy (`modules/EconomyManager.ts`)

Embedded because the simulation tick calls it; no claim reads its
outputs.  `Building.getMaintenanceCost` lives in the missing
`Building.ts` and is modelled from the spec.  The source's
`SIZE_MULTIPLIERS` table has no `block_2x2` entry (a JS lookup there
yields `undefined`, poisoning the revenue with `NaN`); the embedding
uses 0 for that case.
-/

/-- `SIZE_MULTIPLIERS` (small 1, medium 2.5, large 5; see the section
comment about `block_2x2`). -/
def econSizeMultiplier : BuildingSize → ℚ
  | .small => 1
  | .medium => 5/2
  | .large => 5
  | .block2x2 => 0

/-- `BASE_TAX_RATES` (residential 5%, commercial 8%, industrial 6%). -/
def baseTaxRate : ZoneType → ℚ
  | .residential => 5/100
  | .commercial => 8/100
  | .industrial => 6/100

/-- `calculateBaseIncome`. -/
def calculateBaseIncome (b : Building) : ℚ :=
  match b.type with
  | .residential => b.population * 100
  | .commercial => b.jobs * 200
  | .industrial => b.jobs * 150

/-- `calculateTaxRevenue` (tick path: called without a grid, so no
connectivity scaling), floored. -/
def calculateTaxRevenue (buildings : List Building) : ℤ :=
  ⌊(buildings.map fun b =>
      calculateBaseIncome b * baseTaxRate b.type * econSizeMultiplier b.size).sum⌋

/-- `calculateTotalPopulation`. -/
def calculateTotalPopulation (buildings : List Building) : ℚ :=
  (buildings.map fun b => b.population).sum

/-- `calculateEmploymentRate`. -/
def calculateEmploymentRate (buildings : List Building) : ℚ :=
  let totalJobs := (buildings.map fun b => b.jobs).sum
  let totalPopulation := calculateTotalPopulation buildings
  if totalPopulation = 0 then 0
  else min 100 (totalJobs / totalPopulation * 100)

/-- `calculateAverageIncome`. -/
def calculateAverageIncome (buildings : List Building) : ℤ :=
  let totalRevenue := calculateTaxRevenue buildings
  let totalPopulation := calculateTotalPopulation buildings
  if totalPopulation = 0 then 0
  else ⌊(totalRevenue * 20 : ℚ) / totalPopulation⌋

/-- Modelled from the spec: `Building.getMaintenanceCost` is in the
missing `Building.ts`; the `MAINTENANCE_COSTS` table of
`EconomyManager.ts` gives per-zone-type costs (residential 10,
commercial 15, industrial 20). -/
def Building.getMaintenanceCost (b : Building) : ℚ :=
  match b.type with
  | .residential => 10
  | .commercial => 15
  | .industrial => 20

/-- `calculateMaintenanceCosts`, floored. -/
def calculateMaintenanceCosts (buildings : List Building) : ℤ :=
  ⌊(buildings.map fun b => b.getMaintenanceCost).sum⌋

/-- `INFRASTRUCTURE_COSTS` (road 50, power 100, water 75). -/
def infraCost : InfrastructureType → ℚ
  | .road => 50
  | .power => 100
  | .water => 75

/-- `calculateInfrastructureCosts`: 10% of total construction cost,
floored. -/
def calculateInfrastructureCosts (zones : List (List Zone)) : ℤ :=
  ⌊((zones.map fun row =>
      (row.map fun z => (z.infrastructure.map infraCost).sum).sum).sum) * (1/10)⌋

/-- `calculateCityRating`: base 50 with population, happiness,
employment, pollution and building-count terms, floored and clamped to
`[0,100]`. -/
def calculateCityRating (buildings : List Building)
    (averageHappiness employmentRate pollution : ℚ) : ℤ :=
  let population := calculateTotalPopulation buildings
  let rating : ℚ :=
    50 + min 20 (population / 100)
      + (averageHappiness - 50) * (3/10)
      + (employmentRate - 50) * (2/10)
      - pollution * (5/10)
      + min 10 ((buildings.length : ℚ) / 10)
  max 0 (min 100 ⌊rating⌋)

/-- `EconomicStats`. -/
structure EconomicStats where
  totalMoney : ℚ
  totalPopulation : ℚ
  totalTaxRevenue : ℤ
  employmentRate : ℚ
  averageIncome : ℤ
  cityRating : ℤ
  maintenanceCosts : ℤ
  infrastructureCosts : ℤ
deriving DecidableEq, Repr

/-- `calculateEconomicStats`. -/
def calculateEconomicStats (buildings : List Building)
    (zones : List (List Zone)) (averageHappiness pollution : ℚ) :
    EconomicStats :=
  { totalMoney := 0
    totalPopulation := calculateTotalPopulation buildings
    totalTaxRevenue := calculateTaxRevenue buildings
    employmentRate := calculateEmploymentRate buildings
    averageIncome := calculateAverageIncome buildings
    cityRating :=
      calculateCityRating buildings averageHappiness
        (calculateEmploymentRate buildings) pollution
    maintenanceCosts := calculateMaintenanceCosts buildings
    infrastructureCosts := calculateInfrastructureCosts zones }

/-!
## City (`City` class in the `HappinessManager.ts` source file)
-/

/-- The city state: the zone grid plus its dimensions (`gridWidth`,
`gridHeight`). -/
structure City where
  zones : List (List Zone)
  gridWidth : ℕ
  gridHeight : ℕ
deriving DecidableEq, Repr

/-- `initializeZones` / the `City` constructor: every cell is a fresh
`new Zone(x, y, null)` (whose stored type, see `Zone.init`, is
residential). -/
def City.init (w h : ℕ) : City :=
  { zones := (List.range h).map fun y => (List.range w).map fun x =>
      Zone.init (x : ℤ) (y : ℤ) none
    gridWidth := w, gridHeight := h }

/-- `City.getZone`: bounds-checked cell lookup. -/
def City.getZone (c : City) (x y : ℤ) : Option Zone :=
  if ¬ zInBounds c.gridWidth c.gridHeight x y then none
  else some (zoneAt c.zones x y)

/-- `City.addZone`: fails on out-of-bounds coordinates or when
`zone.getType() !== null`; otherwise sets the type.  (Because
`Zone.getType` never returns `null` — see `Zone.init` — the success
branch is unreachable.) -/
def City.addZone (c : City) (x y : ℤ) (zoneType : ZoneType) : Bool × City :=
  if ¬ zInBounds c.gridWidth c.gridHeight x y then (false, c)
  else
    let zone := zoneAt c.zones x y
    if zone.getType ≠ none then (false, c)
    else (true, { c with zones := setZoneAt c.zones x y (zone.setType (some zoneType)) })

/-- `City.addInfrastructure`: bounds-checked delegation to
`Zone.addInfrastructure`. -/
def City.addInfrastructure (c : City) (x y : ℤ) (t : InfrastructureType) :
    Bool × City :=
  if ¬ zInBounds c.gridWidth c.gridHeight x y then (false, c)
  else
    let r := (zoneAt c.zones x y).addInfrastructure t
    (r.1, { c with zones := setZoneAt c.zones x y r.2 })

/-- `City.canZoneGrow`: some infrastructure, a (re-randomised) weather
roll, and happiness above 30.  All three conjuncts are computed before
the `&&` (so the weather draw is always consumed). -/
def canZoneGrow (ws : WeatherState) (zone : Zone) (weatherDraw : ℚ) : Bool :=
  let hasInfrastructure := 0 < zone.infrastructure.length
  let weatherAllowsGrowth := canGrowInCurrentWeather ws weatherDraw
  let happinessThreshold := 30 < zone.happiness
  hasInfrastructure && weatherAllowsGrowth && happinessThreshold

/-- `City.canBlockZoneGrow`: all four block cells must have all basic
infrastructure (checked before the weather draw), then a weather roll
and average happiness above 40. -/
def canBlockZoneGrow (ws : WeatherState) (c : City) (zone : Zone)
    (weatherDraw : ℚ) : Bool :=
  match zone.blockZoneX, zone.blockZoneY with
  | some bx, some by' =>
    let cells : List (Option Zone) :=
      ([(0, 0), (1, 0), (0, 1), (1, 1)] : List (ℤ × ℤ)).map fun p =>
        c.getZone (bx + p.1) (by' + p.2)
    let hasAllInfrastructure := cells.all fun oz =>
      match oz with
      | some z => z.hasAllBasicInfrastructure
      | none => false
    if ¬ hasAllInfrastructure then false
    else
      let averageHappiness : ℚ :=
        ((cells.map fun oz => (oz.getD defaultZone).happiness).sum) / 4
      canGrowInCurrentWeather ws weatherDraw && 40 < averageHappiness
  | _, _ => false

/-- Number of draws `canBlockZoneGrow` consumes (the infrastructure
loop runs before the weather roll). -/
def canBlockZoneGrowDraws (c : City) (zone : Zone) : ℕ :=
  match zone.blockZoneX, zone.blockZoneY with
  | some bx, some by' =>
    let cells := [(0, 0), (1, 0), (0, 1), (1, 1)].map fun (dx, dy) =>
      c.getZone (bx + dx) (by' + dy)
    if cells.all fun oz =>
        match oz with
        | some z => z.hasAllBasicInfrastructure
        | none => false
    then 1 else 0
  | _, _ => 0

/-- `City.canBuildingUpgrade`: building present, not `large`, happiness
above 50 and a weather roll (both computed, so the draw is consumed
whenever the size check passes). -/
def canBuildingUpgrade (ws : WeatherState) (zone : Zone) (weatherDraw : ℚ) : Bool :=
  match zone.building with
  | none => false
  | some b =>
    if b.size = .large then false
    else
      let happinessThreshold := 50 < zone.happiness
      let weatherAllowsGrowth := canGrowInCurrentWeather ws weatherDraw
      happinessThreshold && weatherAllowsGrowth

/-- Number of draws `City.canBuildingUpgrade` consumes. -/
def canBuildingUpgradeDraws (zone : Zone) : ℕ :=
  match zone.building with
  | none => 0
  | some b => if b.size = .large then 0 else 1

/-- `City.getBlockBuildingType`. -/
def getBlockBuildingType (zoneType : ZoneType) : BuildingType :=
  match zoneType with
  | .residential => .residentialBlock
  | .commercial => .commercialBlock
  | .industrial => .industrialBlock

/-- `City.createBlockBuilding`: re-checks the block membership and the
four cells' infrastructure, then installs a single block-2×2 building
on the anchor cell. -/
def createBlockBuilding (c : City) (x y : ℤ) (zoneType : ZoneType) : City :=
  match c.getZone x y with
  | none => c
  | some zone =>
    if zone.blockZoneId = none then c
    else
      match zone.blockZoneX, zone.blockZoneY with
      | some bx, some by' =>
        let cells := [(0, 0), (1, 0), (0, 1), (1, 1)].map fun (dx, dy) =>
          c.getZone (bx + dx) (by' + dy)
        let hasAllInfrastructure := cells.all fun oz =>
          match oz with
          | some z => z.hasAllBasicInfrastructure
          | none => false
        if ¬ hasAllInfrastructure then c
        else
          let b := Building.createBlock bx by' zoneType (getBlockBuildingType zoneType)
          match c.getZone bx by' with
          | some topLeft =>
            { c with zones := setZoneAt c.zones bx by' { topLeft with building := some b } }
          | none => c
      | _, _ => c

/-- One cell of `City.simulateBuildingGrowth`, threading the draw
counter: spawn (single or block) on empty cells, upgrade on occupied
ones. -/
def growthStepCell (ws : WeatherState) (s : RandStream) (c : City)
    (n : ℕ) (x y : ℤ) : City × ℕ :=
  let zone := zoneAt c.zones x y
  match zone.building with
  | none =>
    if zone.blockZoneId ≠ none then
      if zone.blockZoneX = some x ∧ zone.blockZoneY = some y then
        let draws := canBlockZoneGrowDraws c zone
        if canBlockZoneGrow ws c zone (s n) then
          (createBlockBuilding c x y zone.type, n + draws)
        else (c, n + draws)
      else (c, n)
    else
      -- canZoneGrow always consumes one draw; on success the building
      -- id template consumes one more, then shouldCreateBuilding may
      -- consume a third.
      if canZoneGrow ws zone (s n) then
        let idDrawn := n + 2
        let r := zone.createBuilding (s idDrawn)
        ({ c with zones := setZoneAt c.zones x y r.2 },
         idDrawn + zone.shouldCreateDraws)
      else (c, n + 1)
  | some _ =>
    let draws := canBuildingUpgradeDraws zone
    if canBuildingUpgrade ws zone (s n) then
      let r := zone.upgradeBuilding (s (n + draws))
      ({ c with zones := setZoneAt c.zones x y r.2 },
       n + draws + zone.shouldUpgradeDraws)
    else (c, n + draws)

/-- `City.simulateBuildingGrowth`: row-major sequential pass. -/
def simulateBuildingGrowth (ws : WeatherState) (s : RandStream)
    (c : City) (n : ℕ) : City × ℕ :=
  (List.range c.gridHeight).foldl
    (fun (acc : City × ℕ) y =>
      (List.range c.gridWidth).foldl
        (fun (acc' : City × ℕ) x => growthStepCell ws s acc'.1 acc'.2 x y)
        acc)
    (c, n)

/-- `City.getAllBuildings` (row-major). -/
def getAllBuildings (c : City) : List Building :=
  (c.zones.map fun row => row.filterMap fun z => z.building).flatten

/-- `City.calculateAverageHappiness`: average over cells with a truthy
zone type — which, see `Zone.init`, is every cell. -/
def cityAverageHappiness (c : City) : ℚ :=
  let cells := (c.zones.map fun row => row.map fun z => z.happiness).flatten
  if 0 < cells.length then cells.sum / (cells.length : ℚ) else 0

/-- `City.calculateAveragePollution` (same counting as happiness). -/
def cityAveragePollution (c : City) : ℚ :=
  let cells := (c.zones.map fun row => row.map fun z => z.pollution).flatten
  if 0 < cells.length then cells.sum / (cells.length : ℚ) else 0

/-- The `economics` part of a `SimulationUpdate`. -/
structure EconomicsUpdate where
  money : ℚ
  population : ℚ
  taxRevenue : ℤ
  employmentRate : ℚ
deriving DecidableEq, Repr

/-- The result of `City.simulate` together with the post-tick state. -/
structure CityTick where
  buildings : List Building
  economics : EconomicsUpdate
  happiness : ℚ
  pollution : ℚ
  city : City
  weather : WeatherState
  randIdx : ℕ
deriving DecidableEq, Repr

/-- `City.simulate`: weather update, weather effects, happiness pass,
transport pass, growth pass, then statistics. -/
def citySimulate (sq : ℤ → ℚ) (s : RandStream) (ws : WeatherState)
    (n : ℕ) (c : City) : CityTick :=
  let w := c.gridWidth
  let h := c.gridHeight
  let r1 := updateWeather ws s n
  let ws1 := r1.1
  let n1 := r1.2
  let zones1 := applyWeatherEffects ws1 c.zones
  let zones2 := updateAllZoneHappiness sq zones1 w h
  let zones3 :=
    (List.range h).foldl
      (fun zs y =>
        (List.range w).foldl
          (fun zs' x =>
            setZoneAt zs' x y
              (applyTransportHappinessEffect sq (zoneAt zs' x y) zs' w h))
          zs)
      zones2
  let c3 : City := { c with zones := zones3 }
  let r2 := simulateBuildingGrowth ws1 s c3 n1
  let c4 := r2.1
  let n2 := r2.2
  let buildings := getAllBuildings c4
  let stats :=
    calculateEconomicStats buildings c4.zones (cityAverageHappiness c4)
      (cityAveragePollution c4)
  { buildings := buildings
    economics :=
      { money := stats.totalMoney, population := stats.totalPopulation
        taxRevenue := stats.totalTaxRevenue
        employmentRate := stats.employmentRate }
    happiness := cityAverageHappiness c4
    pollution := cityAveragePollution c4
    city := c4, weather := ws1, randIdx := n2 }

/-!
## Simulation engine (`modules/SimulationEngine.ts`)
-/

/-- The `powerGrid` summary attached to a `SimulationUpdate`. -/
structure PowerGridSummary where
  totalCapacity : ℚ
  totalDemand : ℚ
  efficiency : ℚ
  isOverloaded : Bool
  shortageAreas : ℕ
deriving DecidableEq, Repr

/-- The full update record emitted once per tick, together with the
post-tick engine state. -/
structure TickResult where
  buildings : List Building
  economics : EconomicsUpdate
  happiness : ℚ
  pollution : ℚ
  powerGrid : PowerGridSummary
  connectivity : ConnectivityStats
  city : City
  weather : WeatherState
  randIdx : ℕ
deriving DecidableEq, Repr

/-- `SimulationEngine.simulate`: compute the power distribution and the
connectivity statistics **from the city grid as it stands on entry**,
then run `City.simulate` (weather, happiness, transport, growth,
economy), and attach the earlier summaries to the returned update. -/
def simulateTick (sq : ℤ → ℚ) (s : RandStream) (ws : WeatherState)
    (n : ℕ) (c : City) : TickResult :=
  let cityGrid := toGridFormat c.zones
  let pg := calculatePowerDistribution cityGrid
  let grid1 := updateGridPowerStatus cityGrid pg
  let grid2 := updateGridConnectivity grid1
  let tick := citySimulate sq s ws n c
  let connectivityStats := getGridConnectivityStats grid2
  { buildings := tick.buildings
    economics := tick.economics
    happiness := tick.happiness
    pollution := tick.pollution
    powerGrid :=
      { totalCapacity := pg.totalCapacity, totalDemand := pg.totalDemand
        efficiency := pg.efficiency
        isOverloaded := isPowerGridOverloaded pg
        shortageAreas := (getPowerShortageAreas pg).length }
    connectivity := connectivityStats
    city := tick.city, weather := tick.weather, randIdx := tick.randIdx }

/-!
## Auxiliary definitions for the specification checks
-/

/-- The node kind encoded in a node id (the string prefix
`power_source_` / `power_consumer_` in the source). -/
def PowerNodeId.kind : PowerNodeId → PowerNodeType
  | .sourceId _ _ => .source
  | .consumerId _ _ => .consumer

/-- The contribution of one node to the conservation potential: its
capacity if it is a source, plus its demand if it is a connected
consumer. -/
def nodePhi (n : PowerNode) : ℚ :=
  (if n.ntype = .source then n.capacity else 0) +
    (if n.ntype = .consumer ∧ n.connected then n.demand else 0)

/-- Conservation potential of a node list: remaining source capacity
plus allotted consumer demand. -/
def phi (ns : List PowerNode) : ℚ :=
  (ns.map nodePhi).sum

/-- Wellformedness of a node list: non-negative demands and
capacities, and node types consistent with the type encoded in the
node id (as `buildPowerNodes` guarantees). -/
def NodesOK (ns : List PowerNode) : Prop :=
  ∀ n ∈ ns, 0 ≤ n.demand ∧ 0 ≤ n.capacity ∧ n.id.kind = n.ntype

/-- A concrete square-root oracle, exact on perfect squares (the only
inputs at which concrete runs below consult it). -/
def qSqrtInt (d : ℤ) : ℚ :=
  (Nat.sqrt d.toNat : ℚ)

/-- The all-zeros draw stream used by concrete runs. -/
def zeroStream : RandStream :=
  fun _ => 0

/-- The specification's reading of the per-type service-building
distance-decay rules (C3, verbatim: park `15·(1−d/3)` for `d ≤ 3`,
school `10·(1−d/5)` for `d ≤ 5`, hospital `8·(1−d/8)` for `d ≤ 8`,
power plant `−20` for `d ≤ 2`, `5·(1−d/5)` for `2 < d ≤ 5`). -/
def serviceEffectClaim (t : Option BuildingType) (d : ℚ) : ℚ :=
  match t with
  | some .park => if d ≤ 3 then 15 * (1 - d / 3) else 0
  | some .school => if d ≤ 5 then 10 * (1 - d / 5) else 0
  | some .hospital => 8 * (1 - d / 8)
  | some .powerplant =>
    if d ≤ 2 then -20
    else if d ≤ 5 then 5 * (1 - d / 5)
    else 0
  | _ => 0

/-- The amended per-type rules actually implemented: the same cutoffs,
but every non-flat branch decays with the caller's radius 8
(`distanceFactor = 1 − d/8`). -/
def serviceEffectAmended (t : Option BuildingType) (d : ℚ) : ℚ :=
  match t with
  | some .park => if d ≤ 3 then 15 * (1 - d / 8) else 0
  | some .school => if d ≤ 5 then 10 * (1 - d / 8) else 0
  | some .hospital => 8 * (1 - d / 8)
  | some .powerplant =>
    if d ≤ 2 then -20
    else if d ≤ 5 then 5 * (1 - d / 8)
    else 0
  | _ => 0

/-- The specification's reading of per-building-cell infrastructure
connectivity (C8): the cell itself carries the flag, or some in-bounds
cell within the type's Euclidean detection radius carries it. -/
def connectivityClaim (t : InfrastructureType) (x y : ℤ)
    (grid : List (List GridCell)) : Prop :=
  (cellAt grid x y).hasInfra t = true ∨
    ∃ nx ny : ℤ, inBounds grid nx ny = true ∧
      distSq x y nx ny ≤ (connectionRange t : ℤ) ^ 2 ∧
      (cellAt grid nx ny).hasInfra t = true

/-- Rectangularity of a cell grid: `h` rows of length `w`. -/
def RectGrid (grid : List (List GridCell)) (w h : ℕ) : Prop :=
  grid.length = h ∧ ∀ row ∈ grid, row.length = w

/-- Rank of an optional building's size (no building counts 0). -/
def optRank (ob : Option Building) : ℕ :=
  ob.elim 0 fun b => sizeRank b.size

/-- The occupied-cell branch of the growth pass (upgrade path) as a
zone transformer: `City.canBuildingUpgrade` gates
`Zone.upgradeBuilding` (see `growthStepCell`). -/
def upgradeStep (ws : WeatherState) (z : Zone) (weatherDraw upgradeDraw : ℚ) : Zone :=
  if canBuildingUpgrade ws z weatherDraw then (z.upgradeBuilding upgradeDraw).2
  else z

/-!
### Concrete inputs for the evaluation theorems
-/

/-- A small residential house (for power-scenario grids). -/
def scHouse (x y : ℤ) : Building :=
  { x := x, y := y, type := .residential, buildingType := some .house
    size := .small, happiness := 50, pollution := 0
    population := 4, jobs := 0, isBlock := false }

/-- A power plant (for power-scenario grids). -/
def scPlant (x y : ℤ) : Building :=
  { x := x, y := y, type := .industrial, buildingType := some .powerplant
    size := .large, happiness := 50, pollution := 0
    population := 0, jobs := 0, isBlock := false }

/-- Consumer sites of the C1 scenario, outside the central rectangle:
eight extra cells at squared distance 49 or 64 from the plant. -/
def c1ExtraSites : List (ℤ × ℤ) :=
  [(8, 0), (8, 16), (0, 8), (16, 8), (8, 1), (8, 15), (1, 8), (15, 8)]

/-- Consumer sites of the C1 scenario: the 13×11 rectangle
`[2,14]×[3,13]` minus the plant cell (142 cells, squared distance at
most 61 from the plant at (8,8)) together with the eight extra sites —
150 consumers in all, every one within transmission range 8. -/
def c1IsConsumerSite (x y : ℤ) : Bool :=
  (2 ≤ x ∧ x ≤ 14 ∧ 3 ≤ y ∧ y ≤ 13 ∧ ¬(x = 8 ∧ y = 8)) ∨ (x, y) ∈ c1ExtraSites

/-- One cell of the C1 scenario grid: power infrastructure everywhere
(so every straight-line path check passes), the plant at (8,8), and a
small house (demand 10) on each consumer site. -/
def c1Cell (x y : ℤ) : GridCell :=
  { x := x, y := y, zoneType := some .residential, infrastructure := [.power]
    building :=
      if x = 8 ∧ y = 8 then some (scPlant 8 8)
      else if c1IsConsumerSite x y then some (scHouse x y)
      else none
    happiness := 50, pollution := 0, hasPower := false
    powerCapacity := 0, powerDemand := 0
    hasRoad := false, hasWater := false, connectivityEfficiency := none }

/-- The 17×17 C1 scenario grid: one plant of capacity 1000 and 150
reachable consumers each demanding 10. -/
def c1Grid : List (List GridCell) :=
  (List.range 17).map fun y => (List.range 17).map fun x => c1Cell x y

/-- C2 counterexample cell: a single road flag, happiness 100, no
building. -/
def c2Zone : Zone :=
  { Zone.init 0 0 none with infrastructure := [.road], happiness := 100 }

/-- A park (for the C3 counterexample). -/
def c3Park : Building :=
  { x := 0, y := 0, type := .residential, buildingType := some .park
    size := .small, happiness := 50, pollution := 0
    population := 0, jobs := 0, isBlock := false }

/-- C7 counterexample cell: a small residential building, no
infrastructure, happiness 55. -/
def c7Zone : Zone :=
  { Zone.init 0 0 none with
    building := some (Building.create 0 0 .residential), happiness := 55 }

/-- C8 witness grid: 2×2, road at (1,0), power at (1,1), a building at
(0,0). -/
def c8Grid : List (List GridCell) :=
  [[{ defaultCell with x := 0, y := 0, building := some (scHouse 0 0) },
    { defaultCell with x := 1, y := 0, infrastructure := [.road] }],
   [{ defaultCell with x := 0, y := 1 },
    { defaultCell with x := 1, y := 1, infrastructure := [.power] }]]

/-- C9 counterexample city: 2×1, cell (0,0) fully infrastructured (so
the growth pass deterministically spawns a building there under the
all-zeros draw stream), no buildings yet. -/
def c9City : City :=
  let c0 := City.init 2 1
  let z := { zoneAt c0.zones 0 0 with infrastructure := [.road, .power, .water] }
  { c0 with zones := setZoneAt c0.zones 0 0 z }

/-- C10 witness zone: road and water present. -/
def c10Zone : Zone :=
  { Zone.init 0 0 none with infrastructure := [.road, .water] }

/-!
## Theorems
-/

set_option maxRecDepth 100000

/-- C1: the claim states that the power snapshot reports
`totalCapacity` = the sum of plant capacities, `totalDemand` = the sum
of consumer demands, `efficiency = min(1, demand/capacity)`, overload
iff `efficiency > 0.9`, and in particular that a plant of capacity
1000 with 150 reachable consumers of demand 10 yields efficiency 1 and
an overloaded grid.  Evaluating the code on exactly that scenario
(`c1Grid`): the statistics are computed only *after* `simulatePowerFlow`
has decremented source capacities and clamped consumer demands, so the
snapshot reports capacity 0 and demand 1000, the
`totalCapacity > 0` guard then forces efficiency 0, and the overload
flag is false — while the pre-flow node list indeed carries capacity
1000 and demand 1500 as the claim assumes. -/
theorem C1_power_snapshot_eval :
    ((buildPowerNodes c1Grid).filter fun n => n.ntype = .consumer).length = 150 ∧
    sumSourceCapacity (buildPowerNodes c1Grid) = 1000 ∧
    sumConsumerDemand (buildPowerNodes c1Grid) = 1500 ∧
    (calculatePowerDistribution c1Grid).totalCapacity = 0 ∧
    (calculatePowerDistribution c1Grid).totalDemand = 1000 ∧
    (calculatePowerDistribution c1Grid).efficiency = 0 ∧
    isPowerGridOverloaded (calculatePowerDistribution c1Grid) = false := by
  with_unfolding_all decide

/-- C3 (counterexample): a park at Euclidean distance 2 contributes
`15·(1−2/8) = 45/4`, not the claimed `15·(1−2/3) = 5`. -/
theorem C3_counterexample :
    getServiceBuildingEffect c3Park 2 8 = 45/4 ∧
    serviceEffectClaim (some .park) 2 = 5 ∧
    getServiceBuildingEffect c3Park 2 8 ≠ serviceEffectClaim (some .park) 2 := by
  with_unfolding_all decide

/-- C3 (amended): the per-type cutoffs are as claimed (park 3,
school 5, hospital 8, power plant 2-and-5, with the flat −20 inside
radius 2), but every decaying branch uses the caller's radius 8 in the
decay factor: park `15·(1−d/8)`, school `10·(1−d/8)`, hospital
`8·(1−d/8)`, power plant `5·(1−d/8)`. -/
theorem C3_service_effect_formula (b : Building) (d : ℚ) :
    getServiceBuildingEffect b d 8 = serviceEffectAmended b.getServiceType d := by
  unfold getServiceBuildingEffect serviceEffectAmended
  rcases h : b.getServiceType with _ | t
  · simp
  · cases t <;> simp

/-- C4: the claim (with §8 of the spec) states happiness and pollution
stay in `[0,100]` after every pass.  The code violates the lower
pollution bound: starting from a fresh zone (pollution 0), one foggy
tick raises pollution to 3; a stormy tick then computes the clamped
target `max(0, 3−10) = 0` but hands the delta −3 to
`Zone.updatePollution`, which re-derives pollution as
`min(100, 0 + (−3)) = −3` with no lower clamp. -/
theorem C4_pollution_negative :
    (applyWeatherPollutionEffect { current := .foggy, duration := 3 }
        (Zone.init 0 0 none)).pollution = 3 ∧
    (applyWeatherPollutionEffect { current := .stormy, duration := 2 }
        (applyWeatherPollutionEffect { current := .foggy, duration := 3 }
          (Zone.init 0 0 none))).pollution = -3 ∧
    ¬ (0 ≤ (applyWeatherPollutionEffect { current := .stormy, duration := 2 }
        (applyWeatherPollutionEffect { current := .foggy, duration := 3 }
          (Zone.init 0 0 none))).pollution) := by
  with_unfolding_all decide

/-- C5: the claim states `addZone` succeeds on an un-zoned in-bounds
cell (e.g. any cell of a freshly initialized grid).  In the code the
`Zone` constructor coerces the initial `null` type to residential
(`type || ZoneType.RESIDENTIAL`), so `zone.getType() !== null` holds
for *every* cell and `City.addZone` returns false unconditionally — in
particular on every cell of a fresh grid, leaving the city
unchanged. -/
theorem C5_addZone_always_fails :
    (∀ (c : City) (x y : ℤ) (t : ZoneType), (c.addZone x y t).1 = false) ∧
    City.addZone (City.init 2 2) 0 0 .commercial = (false, City.init 2 2) := by
  refine ⟨fun c x y t => ?_, by with_unfolding_all decide⟩
  unfold City.addZone
  split
  · rfl
  · simp [Zone.getType]

/-- C2 (counterexample): a cell with exactly one infrastructure flag
(road), happiness 100 and no building satisfies every precondition the
claim lists (≥ 1 flag, weather permits, happiness > 30), and the
claimed spawn probability `clamp(0.3+0.1·1+100/200, 0, 1) = 0.9`
exceeds the uniform draw 0 — yet `Zone.createBuilding` spawns nothing,
because `shouldCreateBuilding` additionally requires *all three* basic
infrastructure flags. -/
theorem C2_counterexample :
    canZoneGrow initWeather c2Zone 0 = true ∧
    (0 : ℚ) < clamp (3/10 + (c2Zone.infrastructure.length : ℚ) * (1/10) +
      c2Zone.happiness / 200) 0 1 ∧
    (c2Zone.createBuilding 0).1 = none ∧
    (c2Zone.createBuilding 0).2 = c2Zone := by
  with_unfolding_all decide

/-- C7 (counterexample): a small building on a cell with happiness 55
(> 50) in growth-permitting weather — the claim says its size advances
one step this tick — is left unchanged by the upgrade path, because
`Zone.shouldUpgradeBuilding` additionally requires all basic
infrastructure, happiness > 60, and a 20% draw. -/
theorem C7_counterexample :
    canBuildingUpgrade initWeather c7Zone 0 = true ∧
    upgradeStep initWeather c7Zone 0 0 = c7Zone ∧
    (c7Zone.building.map Building.size) = some .small := by
  with_unfolding_all decide

/-- C9 (counterexample): on a 2×1 city whose cell (0,0) has all three
infrastructure flags, the tick (all-zero draw stream) grows one
building, and the power snapshot recomputed on the post-tick grid has
total demand 10 — yet the `powerGrid` summary in the emitted update
record reports total demand 0, because the power pass ran on the grid
as it stood *before* this tick's weather/happiness/growth passes. -/
theorem C9_counterexample :
    (simulateTick qSqrtInt zeroStream initWeather 0 c9City).powerGrid.totalDemand = 0 ∧
    (getAllBuildings (simulateTick qSqrtInt zeroStream initWeather 0 c9City).city).length = 1 ∧
    (calculatePowerDistribution (toGridFormat
      (simulateTick qSqrtInt zeroStream initWeather 0 c9City).city.zones)).totalDemand = 10 := by
  with_unfolding_all decide

/-- C9 (amended): the passes run in the order power distribution,
connectivity, weather, happiness (and transport), growth, economy; the
`powerGrid` and `connectivity` summaries of the emitted update record
are computed from the grid state on entry to the tick.  Consequently
they are independent of everything that drives this tick's weather,
happiness and growth changes: the square-root oracle, the draw stream,
its index, and the weather state. -/
theorem C9_summaries_pre_tick (sq sq' : ℤ → ℚ) (s s' : RandStream)
    (ws ws' : WeatherState) (n n' : ℕ) (c : City) :
    (simulateTick sq s ws n c).powerGrid = (simulateTick sq' s' ws' n' c).powerGrid ∧
    (simulateTick sq s ws n c).connectivity = (simulateTick sq' s' ws' n' c).connectivity :=
  ⟨rfl, rfl⟩

/-- Any cell with all three basic flags has a non-empty infrastructure
list. -/
theorem hasAll_length_pos (z : Zone) :
    z.hasAllBasicInfrastructure = true → 0 < z.infrastructure.length := by
  intro h
  unfold Zone.hasAllBasicInfrastructure Zone.hasInfrastructure at h
  simp only [Bool.and_eq_true, decide_eq_true_eq] at h
  exact List.length_pos.mpr (List.ne_nil_of_mem h.1.1)

/-- C2 (amended): the single-cell growth path of the tick
(`canZoneGrow` gating `Zone.createBuilding`, see `growthStepCell`)
spawns a building exactly when the cell has no building, carries *all
three* basic infrastructure flags, the weather roll passes, happiness
exceeds 30, and the spawn draw is below
`0.3 + 0.1·|infrastructure| + happiness/200` (for draws in `[0,1)`
this coincides with the claimed clamped probability); with fewer than
all three flags the spawn probability is 0, not the claimed clamp
value. -/
theorem C2_growth_characterization (ws : WeatherState) (z : Zone) (wd sd : ℚ) :
    (canZoneGrow ws z wd && (z.createBuilding sd).1.isSome) =
      (z.building.isNone && z.hasAllBasicInfrastructure &&
        decide (wd < (weatherEffects ws.current).growthModifier) &&
        decide (30 < z.happiness) &&
        decide (sd < 3/10 + (z.infrastructure.length : ℚ) * (1/10) + z.happiness / 200)) := by
  cases hbm : z.building with
  | some b =>
    simp [canZoneGrow, Zone.createBuilding, hbm]
  | none =>
    by_cases hall : z.hasAllBasicInfrastructure = true
    · have hlen := hasAll_length_pos z hall
      by_cases hsd : sd < 3 / 10 + (z.infrastructure.length : ℚ) * (10 : ℚ)⁻¹ +
          z.happiness / 200 <;>
        simp [canZoneGrow, canGrowInCurrentWeather, Zone.createBuilding,
          Zone.shouldCreateBuilding, hbm, hall, hlen, hsd]
    · simp only [Bool.not_eq_true] at hall
      simp [canZoneGrow, canGrowInCurrentWeather, Zone.createBuilding,
        Zone.shouldCreateBuilding, hbm, hall]

/-- C7 (amended): the upgrade path of the tick changes the building
exactly when it exists with size ≠ large, happiness exceeds 50 (the
claimed bar) *and* 60, the weather roll passes, all basic
infrastructure is present, and the 20% draw succeeds — in which case
the building becomes `Building.upgrade` of itself (one step up for
small/medium, no change for block-2×2, which is spec-modelled since
`Building.ts` is missing).  The size rank never decreases. -/
theorem C7_upgrade_characterization (ws : WeatherState) (z : Zone) (wd ud : ℚ) :
    (upgradeStep ws z wd ud =
      (match z.building with
      | none => z
      | some b =>
        if b.size ≠ .large ∧ 50 < z.happiness ∧
            wd < (weatherEffects ws.current).growthModifier ∧
            z.hasAllBasicInfrastructure = true ∧ 60 < z.happiness ∧ ud < 1/5 then
          { z with building := some b.upgrade.2 }
        else z)) ∧
    optRank z.building ≤ optRank (upgradeStep ws z wd ud).building := by
  have key : upgradeStep ws z wd ud =
      (match z.building with
      | none => z
      | some b =>
        if b.size ≠ .large ∧ 50 < z.happiness ∧
            wd < (weatherEffects ws.current).growthModifier ∧
            z.hasAllBasicInfrastructure = true ∧ 60 < z.happiness ∧ ud < 1/5 then
          { z with building := some b.upgrade.2 }
        else z) := by
    cases hbm : z.building with
    | none =>
      simp [upgradeStep, canBuildingUpgrade, Zone.upgradeBuilding, hbm]
    | some b =>
      by_cases hL : b.size = .large
      · simp [upgradeStep, canBuildingUpgrade, hbm, hL]
      · by_cases h50 : 50 < z.happiness <;>
        by_cases hwd : wd < (weatherEffects ws.current).growthModifier <;>
        by_cases hall : z.hasAllBasicInfrastructure = true <;>
        by_cases h60 : 60 < z.happiness <;>
        by_cases hud : ud < (5 : ℚ)⁻¹ <;>
          simp [upgradeStep, canBuildingUpgrade, canGrowInCurrentWeather,
            Zone.upgradeBuilding, Zone.shouldUpgradeBuilding, hbm, hL, h50,
            hwd, hall, h60, hud]
  have mono : optRank z.building ≤ optRank (upgradeStep ws z wd ud).building := by
    unfold upgradeStep
    split
    · cases hbm : z.building with
      | none => simp [Zone.upgradeBuilding, hbm, optRank]
      | some b =>
        simp only [Zone.upgradeBuilding, hbm]
        by_cases hsu : z.shouldUpgradeBuilding ud = true
        · simp only [hsu, if_true]
          cases hs : b.size <;>
            simp [optRank, Building.upgrade, hs, sizeRank, hbm]
        · simp only [Bool.not_eq_true] at hsu
          simp [hsu, optRank, hbm]
    · exact le_refl _
  exact ⟨key, mono⟩

/-- C10: adding an infrastructure flag to a cell is idempotent — a
present flag makes `addInfrastructure` return false and change
nothing, an absent one is appended exactly once (preserving
no-duplication), re-adding is a no-op, and the city-level wrapper
fails closed out of bounds. -/
theorem C10_addInfrastructure_idempotent :
    (∀ (z : Zone) (t : InfrastructureType),
      t ∈ z.infrastructure → z.addInfrastructure t = (false, z)) ∧
    (∀ (z : Zone) (t : InfrastructureType),
      t ∉ z.infrastructure →
        z.addInfrastructure t =
          (true, { z with infrastructure := z.infrastructure ++ [t] })) ∧
    (∀ (z : Zone) (t : InfrastructureType),
      z.infrastructure.Nodup → ((z.addInfrastructure t).2).infrastructure.Nodup) ∧
    (∀ (z : Zone) (t : InfrastructureType),
      ((z.addInfrastructure t).2).addInfrastructure t = (false, (z.addInfrastructure t).2)) ∧
    (∀ (c : City) (x y : ℤ) (t : InfrastructureType),
      zInBounds c.gridWidth c.gridHeight x y = false →
        c.addInfrastructure x y t = (false, c)) := by
  refine ⟨fun z t h => ?_, fun z t h => ?_, fun z t h => ?_, fun z t => ?_,
    fun c x y t h => ?_⟩
  · simp [Zone.addInfrastructure, h]
  · simp [Zone.addInfrastructure, h]
  · by_cases hm : t ∈ z.infrastructure
    · simpa [Zone.addInfrastructure, hm] using h
    · simp only [Zone.addInfrastructure, hm, if_neg, if_false]
      simp [List.nodup_append, h, hm]
  · by_cases hm : t ∈ z.infrastructure
    · simp [Zone.addInfrastructure, hm]
    · simp [Zone.addInfrastructure, hm]
  · simp [City.addInfrastructure, h]

/-- C10 witness: on a concrete zone carrying road and water, re-adding
road fails and leaves the zone unchanged, and adding power preserves
no-duplication. -/
theorem C10_witness :
    c10Zone.addInfrastructure .road = (false, c10Zone) ∧
    ((c10Zone.addInfrastructure .power).2).infrastructure.Nodup :=
  ⟨C10_addInfrastructure_idempotent.1 c10Zone .road (by decide),
   C10_addInfrastructure_idempotent.2.2.1 c10Zone .power (by decide)⟩

/-!
### Conservation of power (C6): helper lemmas
-/

theorem phi_cons (n : PowerNode) (ns : List PowerNode) :
    phi (n :: ns) = nodePhi n + phi ns := by
  simp [phi]

theorem phi_eq (ns : List PowerNode) :
    phi ns = sumSourceCapacity ns + sumConnectedDemand ns := by
  induction ns with
  | nil => simp [phi, sumSourceCapacity, sumConnectedDemand]
  | cons n t ih =>
    simp only [phi, sumSourceCapacity, sumConnectedDemand, List.map_cons,
      List.sum_cons] at *
    rw [show nodePhi n = (if n.ntype = .source then n.capacity else 0) +
      (if n.ntype = .consumer ∧ n.connected then n.demand else 0) from rfl]
    linarith

theorem sumSourceCapacity_nonneg (ns : List PowerNode) (h : NodesOK ns) :
    0 ≤ sumSourceCapacity ns := by
  induction ns with
  | nil => simp [sumSourceCapacity]
  | cons n t ih =>
    have hn := h n (by simp)
    have ht : NodesOK t := fun m hm => h m (by simp [hm])
    simp only [sumSourceCapacity, List.map_cons, List.sum_cons]
    have : 0 ≤ (if n.ntype = .source then n.capacity else 0) := by
      split
      · exact hn.2.1
      · exact le_refl 0
    have := ih ht
    simp only [sumSourceCapacity] at this
    linarith

theorem phi_updateNode (i : PowerNodeId) (f : PowerNode → PowerNode)
    (ns : List PowerNode) (m : PowerNode)
    (h : ns.find? (fun n => n.id = i) = some m) :
    phi (updateNode i f ns) = phi ns - nodePhi m + nodePhi (f m) := by
  induction ns with
  | nil => simp at h
  | cons a t ih =>
    by_cases ha : a.id = i
    · rw [List.find?_cons_of_pos _ (by simpa using ha)] at h
      obtain rfl : a = m := by simpa using h
      simp only [updateNode, if_pos ha, phi_cons]
      ring
    · rw [List.find?_cons_of_neg _ (by simpa using ha)] at h
      simp only [updateNode, if_neg ha, phi_cons, ih h]
      ring

theorem mem_updateNode {n' : PowerNode} (i : PowerNodeId)
    (f : PowerNode → PowerNode) (ns : List PowerNode)
    (h : n' ∈ updateNode i f ns) :
    n' ∈ ns ∨ ∃ m, ns.find? (fun n => n.id = i) = some m ∧ n' = f m := by
  induction ns with
  | nil => simp [updateNode] at h
  | cons a t ih =>
    by_cases ha : a.id = i
    · simp only [updateNode, if_pos ha, List.mem_cons] at h
      rcases h with h | h
      · exact Or.inr ⟨a, by rw [List.find?_cons_of_pos _ (by simpa using ha)], h⟩
      · exact Or.inl (List.mem_cons_of_mem _ h)
    · simp only [updateNode, if_neg ha, List.mem_cons] at h
      rcases h with h | h
      · exact Or.inl (by simp [h])
      · rcases ih h with h' | ⟨m, hm, hfm⟩
        · exact Or.inl (List.mem_cons_of_mem _ h')
        · exact Or.inr ⟨m, by rw [List.find?_cons_of_neg _ (by simpa using ha)]; exact hm, hfm⟩

theorem find?_updateNode_eq (i : PowerNodeId) (f : PowerNode → PowerNode)
    (ns : List PowerNode) (hid : ∀ n, (f n).id = n.id) :
    (updateNode i f ns).find? (fun n => n.id = i) =
      (ns.find? (fun n => n.id = i)).map f := by
  induction ns with
  | nil => simp [updateNode]
  | cons a t ih =>
    by_cases ha : a.id = i
    · simp only [updateNode, if_pos ha]
      rw [List.find?_cons_of_pos _ (by simp [hid, ha]),
        List.find?_cons_of_pos _ (by simpa using ha)]
      simp
    · simp only [updateNode, if_neg ha]
      rw [List.find?_cons_of_neg _ (by simpa using ha),
        List.find?_cons_of_neg _ (by simpa using ha)]
      exact ih

theorem find?_updateNode_ne (i j : PowerNodeId) (f : PowerNode → PowerNode)
    (ns : List PowerNode) (hid : ∀ n, (f n).id = n.id) (hij : i ≠ j) :
    (updateNode i f ns).find? (fun n => n.id = j) =
      ns.find? (fun n => n.id = j) := by
  induction ns with
  | nil => simp [updateNode]
  | cons a t ih =>
    by_cases ha : a.id = i
    · simp only [updateNode, if_pos ha]
      have haj : ¬ a.id = j := fun h => hij (ha ▸ h)
      rw [List.find?_cons_of_neg _ (by simp [hid, ha]; exact hij),
        List.find?_cons_of_neg _ (by simpa using haj)]
    · simp only [updateNode, if_neg ha]
      by_cases haj : a.id = j
      · rw [List.find?_cons_of_pos _ (by simpa using haj),
          List.find?_cons_of_pos _ (by simpa using haj)]
      · rw [List.find?_cons_of_neg _ (by simpa using haj),
          List.find?_cons_of_neg _ (by simpa using haj)]
        exact ih

theorem sumSourceCapacity_reset (ns : List PowerNode) :
    sumSourceCapacity (resetConsumers ns) = sumSourceCapacity ns := by
  unfold sumSourceCapacity resetConsumers
  rw [List.map_map]
  congr 1
  apply List.map_congr_left
  intro n hn
  by_cases h : n.ntype = .consumer <;> simp [Function.comp, h]

theorem sumConnectedDemand_reset (ns : List PowerNode) :
    sumConnectedDemand (resetConsumers ns) = 0 := by
  unfold sumConnectedDemand resetConsumers
  rw [List.map_map]
  apply List.sum_eq_zero
  intro q hq
  simp only [List.mem_map] at hq
  obtain ⟨n, hn, rfl⟩ := hq
  by_cases h : n.ntype = .consumer <;> simp [Function.comp, h]

theorem nodesOK_reset (ns : List PowerNode) (h : NodesOK ns) :
    NodesOK (resetConsumers ns) := by
  intro n hn
  simp only [resetConsumers, List.mem_map] at hn
  obtain ⟨m, hm, hmn⟩ := hn
  have := h m hm
  subst hmn
  split <;> simpa using this

/-- The per-connection flow step preserves wellformedness. -/
theorem flowStep_ok (ns : List PowerNode) (conn : PowerConnection)
    (h : NodesOK ns) : NodesOK (flowStep ns conn) := by
  cases hs : ns.find? (fun n => n.id = conn.fromId) with
  | none => simpa [flowStep, hs] using h
  | some s =>
    cases hc : ns.find? (fun n => n.id = conn.toId) with
    | none => simpa [flowStep, hs, hc] using h
    | some c =>
      have hsOK := h s (List.mem_of_find?_eq_some hs)
      by_cases hcap : c.demand ≤ s.capacity
      · -- sufficient capacity: satisfy fully, decrement the source
        simp only [flowStep, hs, hc, if_pos hcap]
        have h1 : NodesOK (updateNode conn.toId
            (fun n => { n with connected := true, powerSource := some s.id }) ns) := by
          intro n hn
          rcases mem_updateNode _ _ _ hn with h2 | ⟨m2, hm2, rfl⟩
          · exact h n h2
          · have hm := h m2 (List.mem_of_find?_eq_some hm2)
            exact ⟨hm.1, hm.2.1, hm.2.2⟩
        intro n hn
        rcases mem_updateNode _ _ _ hn with h2 | ⟨m, hm, rfl⟩
        · exact h1 n h2
        · have hmOK := h1 m (List.mem_of_find?_eq_some hm)
          refine ⟨hmOK.1, ?_, hmOK.2.2⟩
          -- the decremented node is the source found in the original
          -- list (or, when the two ids coincide, its connected copy);
          -- either way its capacity is `s.capacity ≥ c.demand`
          by_cases hft : conn.fromId = conn.toId
          · have hsc : s = c := by
              rw [hft] at hs
              rw [hs] at hc
              exact Option.some.inj hc
            have hmfind :
                (updateNode conn.toId
                  (fun n => { n with connected := true, powerSource := some s.id })
                  ns).find? (fun n => n.id = conn.fromId) =
                some { c with connected := true, powerSource := some s.id } := by
              rw [hft, find?_updateNode_eq conn.toId
                (fun n => { n with connected := true, powerSource := some s.id })
                ns (fun n => rfl), hc]
              rfl
            have hmc : m = { c with connected := true, powerSource := some s.id } := by
              rw [hm] at hmfind
              exact Option.some.inj hmfind
            subst hmc
            simpa [hsc] using sub_nonneg.mpr hcap
          · have hmfind :
                (updateNode conn.toId
                  (fun n => { n with connected := true, powerSource := some s.id })
                  ns).find? (fun n => n.id = conn.fromId) =
                some s := by
              rw [find?_updateNode_ne conn.toId conn.fromId
                (fun n => { n with connected := true, powerSource := some s.id })
                ns (fun n => rfl) (fun hx => hft hx.symm)]
              exact hs
            have hms : m = s := by
              rw [hm] at hmfind
              exact Option.some.inj hmfind
            subst hms
            simpa using sub_nonneg.mpr hcap
      · -- insufficient capacity: clamp the consumer, zero the source
        simp only [flowStep, hs, hc, if_neg hcap]
        have h1 : NodesOK (updateNode conn.toId
            (fun n =>
              { n with connected := true, powerSource := some s.id,
                       demand := s.capacity }) ns) := by
          intro n hn
          rcases mem_updateNode _ _ _ hn with h2 | ⟨m2, hm2, rfl⟩
          · exact h n h2
          · have hm := h m2 (List.mem_of_find?_eq_some hm2)
            exact ⟨hsOK.2.1, hm.2.1, hm.2.2⟩
        intro n hn
        rcases mem_updateNode _ _ _ hn with h2 | ⟨m, hm, rfl⟩
        · exact h1 n h2
        · have hmOK := h1 m (List.mem_of_find?_eq_some hm)
          exact ⟨hmOK.1, le_refl 0, hmOK.2.2⟩

/-- The per-connection flow step never increases the conservation
potential, provided the connection's `from` id names a source. -/
theorem flowStep_phi_le (ns : List PowerNode) (conn : PowerConnection)
    (h : NodesOK ns) (hk : conn.fromId.kind = .source) :
    phi (flowStep ns conn) ≤ phi ns := by
  cases hs : ns.find? (fun n => n.id = conn.fromId) with
  | none => simp [flowStep, hs]
  | some s =>
    cases hc : ns.find? (fun n => n.id = conn.toId) with
    | none => simp [flowStep, hs, hc]
    | some c =>
      have hsOK := h s (List.mem_of_find?_eq_some hs)
      have hcOK := h c (List.mem_of_find?_eq_some hc)
      have hsid : s.id = conn.fromId := by simpa using List.find?_some hs
      have hsrc : s.ntype = .source := by rw [← hsOK.2.2, hsid, hk]
      by_cases hcap : c.demand ≤ s.capacity
      · -- sufficient capacity
        simp only [flowStep, hs, hc, if_pos hcap]
        by_cases hft : conn.fromId = conn.toId
        · have hsc : s = c := by
            rw [hft] at hs
            rw [hs] at hc
            exact Option.some.inj hc
          have hfind1 :
              (updateNode conn.toId
                (fun n => { n with connected := true, powerSource := some s.id })
                ns).find? (fun n => n.id = conn.fromId) =
              some { c with connected := true, powerSource := some s.id } := by
            rw [hft, find?_updateNode_eq conn.toId
              (fun n => { n with connected := true, powerSource := some s.id })
              ns (fun n => rfl), hc]
            rfl
          have h1 := phi_updateNode conn.toId
            (fun n => { n with connected := true, powerSource := some s.id }) ns c hc
          have h2 := phi_updateNode conn.fromId
            (fun n => { n with capacity := n.capacity - c.demand })
            _ _ hfind1
          rw [h2, h1]
          have hcsrc : c.ntype = .source := hsc ▸ hsrc
          simp [nodePhi, hcsrc]
          linarith [hcOK.1]
        · have hfind1 :
              (updateNode conn.toId
                (fun n => { n with connected := true, powerSource := some s.id })
                ns).find? (fun n => n.id = conn.fromId) = some s := by
            rw [find?_updateNode_ne conn.toId conn.fromId
              (fun n => { n with connected := true, powerSource := some s.id })
              ns (fun n => rfl) (fun hx => hft hx.symm)]
            exact hs
          have h1 := phi_updateNode conn.toId
            (fun n => { n with connected := true, powerSource := some s.id }) ns c hc
          have h2 := phi_updateNode conn.fromId
            (fun n => { n with capacity := n.capacity - c.demand })
            _ _ hfind1
          rw [h2, h1]
          by_cases hcn : c.ntype = .consumer
          · by_cases hconn : c.connected = true
            · simp [nodePhi, hsrc, hcn, hconn]
              linarith [hcOK.1]
            · simp only [Bool.not_eq_true] at hconn
              simp [nodePhi, hsrc, hcn, hconn]
          · simp [nodePhi, hsrc, hcn]
            linarith [hcOK.1]
      · -- insufficient capacity
        simp only [flowStep, hs, hc, if_neg hcap]
        by_cases hft : conn.fromId = conn.toId
        · have hsc : s = c := by
            rw [hft] at hs
            rw [hs] at hc
            exact Option.some.inj hc
          have hfind1 :
              (updateNode conn.toId
                (fun n =>
                  { n with connected := true, powerSource := some s.id,
                           demand := s.capacity })
                ns).find? (fun n => n.id = conn.fromId) =
              some { c with connected := true, powerSource := some s.id,
                            demand := s.capacity } := by
            rw [hft, find?_updateNode_eq conn.toId
              (fun n =>
                { n with connected := true, powerSource := some s.id,
                         demand := s.capacity })
              ns (fun n => rfl), hc]
            rfl
          have h1 := phi_updateNode conn.toId
            (fun n =>
              { n with connected := true, powerSource := some s.id,
                       demand := s.capacity }) ns c hc
          have h2 := phi_updateNode conn.fromId
            (fun n => { n with capacity := (0 : ℚ) }) _ _ hfind1
          rw [h2, h1]
          have hcsrc : c.ntype = .source := hsc ▸ hsrc
          simp [nodePhi, hcsrc]
          linarith [hcOK.2.1]
        · have hfind1 :
              (updateNode conn.toId
                (fun n =>
                  { n with connected := true, powerSource := some s.id,
                           demand := s.capacity })
                ns).find? (fun n => n.id = conn.fromId) = some s := by
            rw [find?_updateNode_ne conn.toId conn.fromId
              (fun n =>
                { n with connected := true, powerSource := some s.id,
                         demand := s.capacity })
              ns (fun n => rfl) (fun hx => hft hx.symm)]
            exact hs
          have h1 := phi_updateNode conn.toId
            (fun n =>
              { n with connected := true, powerSource := some s.id,
                       demand := s.capacity }) ns c hc
          have h2 := phi_updateNode conn.fromId
            (fun n => { n with capacity := (0 : ℚ) }) _ _ hfind1
          rw [h2, h1]
          by_cases hcn : c.ntype = .consumer
          · by_cases hconn : c.connected = true
            · simp [nodePhi, hsrc, hcn, hconn]
              linarith [hcOK.1]
            · simp only [Bool.not_eq_true] at hconn
              simp [nodePhi, hsrc, hcn, hconn]
          · simp [nodePhi, hsrc, hcn]
            linarith [hsOK.2.1]

theorem flow_fold (conns : List PowerConnection) (ns : List PowerNode)
    (h : NodesOK ns) (hk : ∀ conn ∈ conns, conn.fromId.kind = .source) :
    phi (conns.foldl flowStep ns) ≤ phi ns ∧
      NodesOK (conns.foldl flowStep ns) := by
  induction conns generalizing ns with
  | nil => exact ⟨le_refl _, h⟩
  | cons conn t ih =>
    have h1 := flowStep_ok ns conn h
    have h2 := flowStep_phi_le ns conn h (hk conn (by simp))
    obtain ⟨ha, hb⟩ := ih (flowStep ns conn) h1 (fun c hc => hk c (by simp [hc]))
    exact ⟨le_trans ha h2, hb⟩

theorem getBuildingPowerDemand_nonneg (b : Building) :
    0 ≤ getBuildingPowerDemand b := by
  unfold getBuildingPowerDemand
  cases b.size <;> split_ifs <;> norm_num

theorem nodesOK_build (grid : List (List GridCell)) :
    NodesOK (buildPowerNodes grid) := by
  intro n hn
  unfold buildPowerNodes at hn
  simp only [List.mem_flatten, List.mem_map] at hn
  obtain ⟨inner, ⟨⟨yrow, hyrow, rfl⟩, hn⟩⟩ := hn
  simp only [List.mem_flatten, List.mem_map] at hn
  obtain ⟨ll, ⟨⟨xcell, hxcell, rfl⟩, hn⟩⟩ := hn
  rcases hmb : xcell.2.building with _ | b
  · simp [hmb] at hn
  · simp only [hmb] at hn
    rcases List.mem_append.mp hn with hn | hn
    · split at hn
      · simp only [List.mem_singleton] at hn
        subst hn
        refine ⟨le_refl 0, ?_, rfl⟩
        unfold getPowerSourceCapacity
        split <;> norm_num
      · simp at hn
    · split at hn
      · simp only [List.mem_singleton] at hn
        subst hn
        exact ⟨getBuildingPowerDemand_nonneg b, le_refl 0, rfl⟩
      · simp at hn

theorem sumSourceCapacity_updateNode (i : PowerNodeId)
    (f : PowerNode → PowerNode) (ns : List PowerNode)
    (hf : ∀ n, (f n).ntype = n.ntype ∧ (f n).capacity = n.capacity) :
    sumSourceCapacity (updateNode i f ns) = sumSourceCapacity ns := by
  induction ns with
  | nil => rfl
  | cons a t ih =>
    simp only [updateNode]
    split
    · simp only [sumSourceCapacity, List.map_cons, List.sum_cons]
      rw [(hf a).1, (hf a).2]
    · simp only [sumSourceCapacity, List.map_cons, List.sum_cons] at *
      rw [ih]

theorem nearestStep_cases (c0 : PowerNode) (best : Option (PowerNode × ℤ))
    (src : PowerNode) :
    nearestStep c0 best src = best ∨
      ∃ d, nearestStep c0 best src = some (src, d) := by
  rcases best with _ | ⟨b, bd⟩ <;>
  · simp only [nearestStep]
    split
    · exact Or.inr ⟨_, rfl⟩
    · exact Or.inl rfl

theorem findNearest_mem (c0 : PowerNode) (srcs : List PowerNode)
    (s0 : PowerNode) (h : findNearestPowerSource c0 srcs = some s0) :
    s0 ∈ srcs := by
  unfold findNearestPowerSource at h
  suffices H : ∀ (acc : Option (PowerNode × ℤ)),
      (srcs.foldl (nearestStep c0) acc).map Prod.fst = some s0 →
      acc.map Prod.fst = some s0 ∨ s0 ∈ srcs by
    rcases H none h with h' | h'
    · simp at h'
    · exact h'
  clear h
  induction srcs with
  | nil =>
    intro acc h'
    exact Or.inl h'
  | cons a t ih =>
    intro acc h'
    simp only [List.foldl_cons] at h'
    rcases ih _ h' with h'' | h''
    · rcases nearestStep_cases c0 acc a with hstep | ⟨d, hstep⟩
      · rw [hstep] at h''
        exact Or.inl h''
      · rw [hstep] at h''
        simp at h''
        exact Or.inr (by subst h''; exact List.mem_cons_self a t)
    · exact Or.inr (List.mem_cons_of_mem _ h'')

theorem buildConn_invariants (nodes : List PowerNode)
    (grid : List (List GridCell)) (h : NodesOK nodes) :
    (∀ conn ∈ (buildPowerConnections nodes grid).1, conn.fromId.kind = .source) ∧
    NodesOK (buildPowerConnections nodes grid).2 ∧
    sumSourceCapacity (buildPowerConnections nodes grid).2 =
      sumSourceCapacity nodes := by
  have hsrc : ∀ s ∈ nodes.filter (fun n => n.ntype = .source),
      s.id.kind = .source := by
    intro s hs
    have hm := List.mem_filter.mp hs
    rw [(h s hm.1).2.2]
    simpa using hm.2
  suffices H : ∀ (cs : List PowerNode) (acc : List PowerConnection × List PowerNode),
      (∀ conn ∈ acc.1, conn.fromId.kind = .source) →
      NodesOK acc.2 →
      sumSourceCapacity acc.2 = sumSourceCapacity nodes →
      (∀ conn ∈ (cs.foldl
        (fun (acc : List PowerConnection × List PowerNode) consumer =>
          match findNearestPowerSource consumer
            (nodes.filter fun n => n.ntype = .source) with
          | none => acc
          | some nearestSource =>
            if canTransmitPower consumer nearestSource grid then
              (acc.1 ++ [{ fromId := nearestSource.id, toId := consumer.id
                           capacity := min nearestSource.capacity consumer.demand
                           dSq := distSq consumer.x consumer.y nearestSource.x nearestSource.y }],
               updateNode consumer.id
                 (fun n => { n with connected := true, powerSource := some nearestSource.id })
                 acc.2)
            else acc) acc).1, conn.fromId.kind = .source) ∧
      NodesOK (cs.foldl
        (fun (acc : List PowerConnection × List PowerNode) consumer =>
          match findNearestPowerSource consumer
            (nodes.filter fun n => n.ntype = .source) with
          | none => acc
          | some nearestSource =>
            if canTransmitPower consumer nearestSource grid then
              (acc.1 ++ [{ fromId := nearestSource.id, toId := consumer.id
                           capacity := min nearestSource.capacity consumer.demand
                           dSq := distSq consumer.x consumer.y nearestSource.x nearestSource.y }],
               updateNode consumer.id
                 (fun n => { n with connected := true, powerSource := some nearestSource.id })
                 acc.2)
            else acc) acc).2 ∧
      sumSourceCapacity (cs.foldl
        (fun (acc : List PowerConnection × List PowerNode) consumer =>
          match findNearestPowerSource consumer
            (nodes.filter fun n => n.ntype = .source) with
          | none => acc
          | some nearestSource =>
            if canTransmitPower consumer nearestSource grid then
              (acc.1 ++ [{ fromId := nearestSource.id, toId := consumer.id
                           capacity := min nearestSource.capacity consumer.demand
                           dSq := distSq consumer.x consumer.y nearestSource.x nearestSource.y }],
               updateNode consumer.id
                 (fun n => { n with connected := true, powerSource := some nearestSource.id })
                 acc.2)
            else acc) acc).2 = sumSourceCapacity nodes by
    exact H (nodes.filter fun n => n.ntype = .consumer) ([], nodes)
      (by simp) h rfl
  intro cs
  induction cs with
  | nil =>
    intro acc h1 h2 h3
    exact ⟨h1, h2, h3⟩
  | cons c t ih =>
    intro acc h1 h2 h3
    simp only [List.foldl_cons]
    rcases hfind : findNearestPowerSource c
        (nodes.filter fun n => n.ntype = .source) with _ | ns0
    · simp only [hfind]
      exact ih acc h1 h2 h3
    · simp only [hfind]
      by_cases htrans : canTransmitPower c ns0 grid = true
      · simp only [if_pos htrans]
        apply ih
        · intro conn hconn
          rcases List.mem_append.mp hconn with hconn | hconn
          · exact h1 conn hconn
          · simp only [List.mem_singleton] at hconn
            subst hconn
            exact hsrc ns0 (findNearest_mem c _ ns0 hfind)
        · intro n hn
          rcases mem_updateNode _ _ _ hn with hn | ⟨m, hm, rfl⟩
          · exact h2 n hn
          · have := h2 m (List.mem_of_find?_eq_some hm)
            exact ⟨this.1, this.2.1, this.2.2⟩
        · rw [sumSourceCapacity_updateNode c.id
            (fun n => { n with connected := true, powerSource := some ns0.id })
            acc.2 (fun n => ⟨rfl, rfl⟩)]
          exact h3
      · simp only [if_neg htrans]
        exact ih acc h1 h2 h3

/-- C6: for every grid, after the power-flow simulation the total
demand allotted to connected consumers never exceeds the sum of the
original power-plant capacities. -/
theorem C6_power_conservation (grid : List (List GridCell)) :
    sumConnectedDemand (calculatePowerDistribution grid).nodes ≤
      sumSourceCapacity (buildPowerNodes grid) := by
  have h0 : NodesOK (buildPowerNodes grid) := nodesOK_build grid
  obtain ⟨hkind, hok, hS⟩ := buildConn_invariants (buildPowerNodes grid) grid h0
  have hreset : NodesOK
      (resetConsumers (buildPowerConnections (buildPowerNodes grid) grid).2) :=
    nodesOK_reset _ hok
  have hphi0 : phi (resetConsumers
      (buildPowerConnections (buildPowerNodes grid) grid).2) =
      sumSourceCapacity (buildPowerNodes grid) := by
    rw [phi_eq, sumConnectedDemand_reset, sumSourceCapacity_reset, hS]
    ring
  obtain ⟨hle, hokFinal⟩ := flow_fold
    (buildPowerConnections (buildPowerNodes grid) grid).1
    (resetConsumers (buildPowerConnections (buildPowerNodes grid) grid).2)
    hreset hkind
  have hfinal : (calculatePowerDistribution grid).nodes =
      ((buildPowerConnections (buildPowerNodes grid) grid).1).foldl flowStep
        (resetConsumers (buildPowerConnections (buildPowerNodes grid) grid).2) := rfl
  rw [hfinal]
  have hSnn : 0 ≤ sumSourceCapacity
      (((buildPowerConnections (buildPowerNodes grid) grid).1).foldl flowStep
        (resetConsumers (buildPowerConnections (buildPowerNodes grid) grid).2)) :=
    sumSourceCapacity_nonneg _ hokFinal
  have hphiF := phi_eq
    (((buildPowerConnections (buildPowerNodes grid) grid).1).foldl flowStep
      (resetConsumers (buildPowerConnections (buildPowerNodes grid) grid).2))
  linarith [hle, hphi0 ▸ hle]

/-!
### Proximity connectivity (C8)
-/

/-- Membership in the `getNeighbors` scan: exactly the in-bounds cells
other than the centre whose squared Euclidean distance is within the
squared radius. -/
theorem mem_getNeighbors (x y : ℤ) (r : ℕ) (grid : List (List GridCell))
    (c : GridCell) :
    c ∈ getNeighbors x y r grid ↔
      ∃ nx ny : ℤ, ¬(nx = x ∧ ny = y) ∧ inBounds grid nx ny = true ∧
        distSq x y nx ny ≤ (r : ℤ) ^ 2 ∧ c = cellAt grid nx ny := by
  unfold getNeighbors
  simp only [List.mem_flatten, List.mem_map]
  constructor
  · rintro ⟨l, ⟨dyi, hdyi, rfl⟩, hc⟩
    obtain ⟨dxi, hdxi, hbody⟩ := List.mem_filterMap.mp hc
    by_cases h1 : ((dxi : ℤ) - r = 0 ∧ (dyi : ℤ) - r = 0) ∨
        ¬ inBounds grid (x + ((dxi : ℤ) - r)) (y + ((dyi : ℤ) - r)) = true
    · simp only [if_pos h1] at hbody
      exact absurd hbody (by simp)
    · simp only [if_neg h1] at hbody
      by_cases h2 : distSq x y (x + ((dxi : ℤ) - r)) (y + ((dyi : ℤ) - r)) ≤ (r : ℤ) ^ 2
      · simp only [if_pos h2, Option.some.injEq] at hbody
        push_neg at h1
        refine ⟨x + ((dxi : ℤ) - r), y + ((dyi : ℤ) - r), ?_, h1.2, h2, hbody.symm⟩
        rintro ⟨hx0, hy0⟩
        have hdx0 : (dxi : ℤ) - r = 0 := by omega
        have hdy0 : (dyi : ℤ) - r = 0 := by omega
        exact h1.1 hdx0 hdy0
      · simp only [if_neg h2] at hbody
        exact absurd hbody (by simp)
  · rintro ⟨nx, ny, hcen, hbound, hdist, rfl⟩
    have hxb : (nx - x) ^ 2 ≤ (r : ℤ) ^ 2 := by
      have := sq_nonneg (ny - y)
      unfold distSq at hdist
      nlinarith
    have hyb : (ny - y) ^ 2 ≤ (r : ℤ) ^ 2 := by
      have := sq_nonneg (nx - x)
      unfold distSq at hdist
      nlinarith
    have hxr : -(r : ℤ) ≤ nx - x ∧ nx - x ≤ r := by
      constructor <;> nlinarith
    have hyr : -(r : ℤ) ≤ ny - y ∧ ny - y ≤ r := by
      constructor <;> nlinarith
    refine ⟨_, ⟨(ny - y + r).toNat, ?_, rfl⟩, ?_⟩
    · exact List.mem_range.mpr (by omega)
    refine List.mem_filterMap.mpr ⟨(nx - x + r).toNat, ?_, ?_⟩
    · exact List.mem_range.mpr (by omega)
    have ex : (((nx - x + r).toNat : ℕ) : ℤ) - r = nx - x := by omega
    have ey : (((ny - y + r).toNat : ℕ) : ℤ) - r = ny - y := by omega
    rw [ex, ey]
    have exx : x + (nx - x) = nx := by ring
    have eyy : y + (ny - y) = ny := by ring
    rw [exx, eyy]
    rw [if_neg (by push_neg; exact ⟨fun hx0 hy0 => hcen ⟨by omega, by omega⟩, by simp [hbound]⟩)]
    rw [if_pos hdist]

/-- C8: for every building cell (in fact any in-bounds cell of a
rectangular grid) and each infrastructure type, the connectivity
scorer reports the type connected iff the cell itself carries the flag
or some in-bounds cell within the type's Euclidean detection radius
(road 1, power 8, water 6) carries it. -/
theorem C8_connectivity_characterization (grid : List (List GridCell))
    (w h : ℕ) (hrect : RectGrid grid w h) (x y : ℤ)
    (hxy : inBounds grid x y = true) (t : InfrastructureType) :
    hasTypeConnectivity t x y grid = true ↔ connectivityClaim t x y grid := by
  unfold hasTypeConnectivity
  rw [if_neg (by simp [hxy])]
  by_cases hflag : (cellAt grid x y).hasInfra t = true
  · rw [if_pos hflag]
    simp only [true_iff]
    exact Or.inl hflag
  · rw [if_neg hflag]
    rw [List.any_eq_true]
    constructor
    · rintro ⟨c, hc, hct⟩
      obtain ⟨nx, ny, hcen, hb, hd, rfl⟩ := (mem_getNeighbors x y _ grid c).mp hc
      exact Or.inr ⟨nx, ny, hb, hd, hct⟩
    · rintro (hcc | ⟨nx, ny, hb, hd, hfl⟩)
      · exact absurd hcc hflag
      · refine ⟨cellAt grid nx ny,
          (mem_getNeighbors x y _ grid _).mpr ⟨nx, ny, ?_, hb, hd, rfl⟩, hfl⟩
        rintro ⟨rfl, rfl⟩
        exact hflag hfl

/-- C8 witness: on the concrete 2×2 grid `c8Grid`, the characterization
applies at cell (0,0) for the road network. -/
theorem C8_witness :
    hasTypeConnectivity .road 0 0 c8Grid = true ↔
      connectivityClaim .road 0 0 c8Grid :=
  C8_connectivity_characterization c8Grid 2 2 (by constructor <;> decide)
    0 0 (by decide) .road

end CitySim

